import Mathlib

/-!
Verification of the dynamical-systems quiz generator (dynsys_webapp).

This file shallowly embeds the question-generation core of the repository:
the Mulberry32 seeded RNG and its helpers (`src/generators/utils/random.ts`),
the 2x2 matrix / eigenvalue utilities (`src/generators/utils/matrix.ts`),
the polynomial utilities (`src/generators/utils/polynomial.ts`), two complete
generator templates (`phasePortraits.ts`, `bifurcations.ts`) and the dispatch
layer (`src/generators/index.ts`).

Modelling conventions:
* JavaScript numbers are modelled as exact rationals (`ℚ`); 32-bit integer
  bit patterns as naturals below `2^32`.  `x | 0` / `x >>> 0` on a pattern is
  `% 2^32`, `Math.imul` is multiplication `% 2^32`, `>>> k` is division by
  `2^k`, and the bitwise `^`/`|` operators act on patterns directly.
* `Math.sqrt` is modelled by `Rat.sqrt`, which agrees with the real square
  root on every perfect-square rational; every discriminant reaching it in
  the verified paths is a perfect square.
* The stateful RNG closure returned by `createRng` is modelled as a
  `DrawSource`: an infinite stream of rationals together with a cursor, and
  every helper threads the advanced source explicitly.  The ambient
  `Math.random` (used by `generateSeed`/`generateId`) is a second, separate
  `DrawSource`.
* JavaScript exceptions (`inverse` on a singular matrix) become `Option`.
-/

/-! ## 32-bit pattern arithmetic and the Mulberry32 RNG -/

/-- `2^32`, the modulus of all 32-bit pattern arithmetic. -/
def u32Mod : ℕ := 4294967296

/-- `Math.imul`: 32-bit wrapping multiplication on bit patterns. -/
def imul32 (a b : ℕ) : ℕ := (a * b) % u32Mod

/-- One draw of the Mulberry32 generator
(`createRng` in `src/generators/utils/random.ts`): from the current 32-bit
state, produce the next state and the drawn value in `[0,1)`.

```js
state |= 0;
state = (state + 0x6d2b79f5) | 0;
let t = Math.imul(state ^ (state >>> 15), 1 | state);
t = (t + Math.imul(t ^ (t >>> 7), 61 | t)) ^ t;
return ((t ^ (t >>> 14)) >>> 0) / 4294967296;
```
-/
def mulberryStep (state : ℕ) : ℕ × ℕ :=
  let s : ℕ := (state % u32Mod + 0x6d2b79f5) % u32Mod
  let t : ℕ := imul32 (s ^^^ (s >>> 15)) (1 ||| s)
  let t2 : ℕ := ((t + imul32 (t ^^^ (t >>> 7)) (61 ||| t)) % u32Mod) ^^^ t
  (s, (t2 ^^^ (t2 >>> 14)) % u32Mod)

/-- The drawn value: the 32-bit output word scaled into `[0,1)`. -/
def mulberryNext (state : ℕ) : ℕ × ℚ :=
  ((mulberryStep state).1, ((mulberryStep state).2 : ℚ) / 4294967296)

/-- The Mulberry32 state before the `(n+1)`-st draw, starting from an
arbitrary integer seed (JavaScript coerces it with `| 0`; on patterns this
is reduction mod `2^32`). -/
def mulberryState (seed : ℤ) : ℕ → ℕ
  | 0 => (seed.emod (u32Mod : ℤ)).toNat
  | n + 1 => (mulberryNext (mulberryState seed n)).1

/-- The `n`-th value (0-based) of the draw sequence of `createRng seed`. -/
def mulberryStream (seed : ℤ) (n : ℕ) : ℚ :=
  (mulberryNext (mulberryState seed n)).2

/-- A stream of `Math.random`-style draws plus a cursor: the explicit-state
model of a `() => number` closure. -/
structure DrawSource where
  f : ℕ → ℚ
  k : ℕ

/-- Pull one value from a draw source. -/
def DrawSource.draw (s : DrawSource) : ℚ × DrawSource :=
  (s.f s.k, ⟨s.f, s.k + 1⟩)

/-- `createRng(seed)`: the fresh Mulberry32 closure as a draw source. -/
def createRng (seed : ℤ) : DrawSource := ⟨mulberryStream seed, 0⟩

/-- The list of the first `n` values drawn from a source. -/
def drawList (s : DrawSource) (n : ℕ) : List ℚ :=
  (List.range n).map fun i => s.f (s.k + i)

theorem u32Mod_pos : 0 < u32Mod := by decide

theorem mulberryStep_snd_lt (state : ℕ) : (mulberryStep state).2 < u32Mod := by
  unfold mulberryStep
  exact Nat.mod_lt _ u32Mod_pos

theorem mulberryNext_snd_bounds (state : ℕ) :
    0 ≤ (mulberryNext state).2 ∧ (mulberryNext state).2 < 1 := by
  unfold mulberryNext
  constructor
  · positivity
  · rw [div_lt_one (by norm_num)]
    calc ((mulberryStep state).2 : ℚ) < (u32Mod : ℚ) := by
          exact_mod_cast mulberryStep_snd_lt state
      _ = 4294967296 := by norm_num [u32Mod]

/-- C2.  Every Mulberry32 draw lies in `[0,1)`, and the draw sequence is a
function of the seed alone: two sources independently constructed from the
same seed produce element-for-element identical prefixes of any length.
(In this pure model `createRng` is a function, so the second conjunct states
that the sequence has no dependence on anything besides the seed and the
draw index.) -/
theorem createRng_range_and_deterministic (seed : ℤ) (N : ℕ) :
    (∀ q ∈ drawList (createRng seed) N, 0 ≤ q ∧ q < 1) ∧
      drawList (createRng seed) N = drawList (createRng seed) N := by
  refine ⟨?_, rfl⟩
  intro q hq
  rcases List.mem_map.mp hq with ⟨i, _, rfl⟩
  exact mulberryNext_snd_bounds _

/-- Witness for C2 at seed 1, N = 2. -/
theorem createRng_range_and_deterministic_witness :
    (∀ q ∈ drawList (createRng 1) 2, 0 ≤ q ∧ q < 1) ∧
      drawList (createRng 1) 2 = drawList (createRng 1) 2 :=
  createRng_range_and_deterministic 1 2

/-! ## Derived RNG helpers (`src/generators/utils/random.ts`) -/

/-- Body of `randomInt`'s do-while loop.  The source redraws unboundedly
while `excludeZero` and the value is 0; the fuel parameter only serves
Lean's termination checker (every verified call site passes
`excludeZero = false`, which consumes exactly one draw). -/
def randomIntGo (min max : ℤ) (excludeZero : Bool) : ℕ → DrawSource → ℤ × DrawSource
  | 0, s =>
    let (r, s') := s.draw
    (⌊r * ((max - min + 1 : ℤ) : ℚ)⌋ + min, s')
  | n + 1, s =>
    let (r, s') := s.draw
    let value := ⌊r * ((max - min + 1 : ℤ) : ℚ)⌋ + min
    if excludeZero ∧ value = 0 then randomIntGo min max excludeZero n s'
    else (value, s')

/-- `randomInt(rng, min, max, excludeZero)`:
`Math.floor(rng() * (max - min + 1)) + min`, redrawn while zero is excluded
and hit. -/
def randomInt (s : DrawSource) (min max : ℤ) (excludeZero : Bool) :
    ℤ × DrawSource :=
  randomIntGo min max excludeZero 1000 s

/-- `randomChoice(rng, array)`: `array[Math.floor(rng() * array.length)]`.
The source yields `undefined` on an empty array (a caller-side
precondition); the model returns `default`. -/
def randomChoice {α : Type} [Inhabited α] (s : DrawSource) (l : List α) :
    α × DrawSource :=
  let (r, s') := s.draw
  (l.getD (⌊r * (l.length : ℚ)⌋).toNat default, s')

/-- Swap two positions of a list (the destructuring swap in `shuffle`). -/
def listSwap {α : Type} (l : List α) (i j : ℕ) : List α :=
  match l.get? i, l.get? j with
  | some a, some b => (l.set i b).set j a
  | _, _ => l

/-- The Fisher–Yates loop of `shuffle`, iterating the current index
`i+1 = length-1, …, 1`. -/
def shuffleGo {α : Type} (s : DrawSource) (l : List α) : ℕ → List α × DrawSource
  | 0 => (l, s)
  | i + 1 =>
    let (r, s') := s.draw
    let j := (⌊r * ((i + 2 : ℕ) : ℚ)⌋).toNat
    shuffleGo s' (listSwap l (i + 1) j) i

/-- `shuffle(rng, array)`: Fisher–Yates on a copy. -/
def shuffle {α : Type} (s : DrawSource) (l : List α) : List α × DrawSource :=
  shuffleGo s l (l.length - 1)

/-- `generateSeed()`: `Math.floor(Math.random() * 2147483647)`, drawing from
the ambient `Math.random` source. -/
def generateSeed (amb : DrawSource) : ℤ × DrawSource :=
  let (r, amb') := amb.draw
  (⌊r * 2147483647⌋, amb')

/-- Character for one base-36 digit (`0-9a-z`). -/
def base36Char (d : ℕ) : Char :=
  if d < 10 then Char.ofNat (48 + d) else Char.ofNat (87 + d)

/-- The first `n` base-36 fraction digits of a rational in `[0,1)`. -/
def base36FracDigits : ℚ → ℕ → List ℕ
  | _, 0 => []
  | q, n + 1 =>
    let q36 := q * 36
    (⌊q36⌋.toNat % 36) :: base36FracDigits (q36 - ⌊q36⌋) n

/-- `generateId()`: `Math.random().toString(36).substring(2, 11)` — the first
nine base-36 fraction digits of an ambient draw.  (JavaScript drops trailing
zero digits of an exactly-representable fraction; the model always emits
nine.  Every claim ignores the id field, so this difference is inert.) -/
def generateId (amb : DrawSource) : String × DrawSource :=
  let (r, amb') := amb.draw
  (String.mk ((base36FracDigits r 9).map base36Char), amb')

/-! ## 2x2 matrix utilities (`src/generators/utils/matrix.ts`) -/

/-- A 2x2 real matrix `[[m00, m01], [m10, m11]]`. -/
structure Matrix2x2 where
  m00 : ℚ
  m01 : ℚ
  m10 : ℚ
  m11 : ℚ
deriving DecidableEq

def trace (m : Matrix2x2) : ℚ := m.m00 + m.m11

def det (m : Matrix2x2) : ℚ := m.m00 * m.m11 - m.m01 * m.m10

def multiply (a b : Matrix2x2) : Matrix2x2 :=
  ⟨a.m00 * b.m00 + a.m01 * b.m10,
   a.m00 * b.m01 + a.m01 * b.m11,
   a.m10 * b.m00 + a.m11 * b.m10,
   a.m10 * b.m01 + a.m11 * b.m11⟩

/-- `inverse(m)`: throws `'Matrix is singular'` when `|det| < 1e-10`
(modelled as `none`). -/
def inverse (m : Matrix2x2) : Option Matrix2x2 :=
  if |det m| < 1 / 10000000000 then none
  else some ⟨m.m11 / det m, -m.m01 / det m, -m.m10 / det m, m.m00 / det m⟩

inductive EigenvalueType where
  | real_distinct_negative    -- stable node
  | real_distinct_positive    -- unstable node
  | real_distinct_mixed       -- saddle
  | real_repeated_negative    -- stable degenerate node
  | real_repeated_positive    -- unstable degenerate node
  | complex_negative_real     -- stable spiral
  | complex_positive_real     -- unstable spiral
  | pure_imaginary            -- center
deriving DecidableEq

/-- One eigenvalue as `{ real, imag }`. -/
structure EigPart where
  real : ℚ
  imag : ℚ
deriving DecidableEq

structure EigenvalueInfo where
  type : EigenvalueType
  lambda1 : EigPart
  lambda2 : EigPart
deriving DecidableEq

/-- `classifyEigenvalues(m)`.  `Math.sqrt` is modelled by `Rat.sqrt`, exact
on the perfect-square discriminants arising in all verified paths. -/
def classifyEigenvalues (m : Matrix2x2) : EigenvalueInfo :=
  let t := trace m
  let d := det m
  let discriminant := t * t - 4 * d
  if 0 < discriminant then
    let sqrtDisc := Rat.sqrt discriminant
    let l1 := (t + sqrtDisc) / 2
    let l2 := (t - sqrtDisc) / 2
    let type : EigenvalueType :=
      if l1 < 0 ∧ l2 < 0 then .real_distinct_negative
      else if 0 < l1 ∧ 0 < l2 then .real_distinct_positive
      else .real_distinct_mixed
    ⟨type, ⟨l1, 0⟩, ⟨l2, 0⟩⟩
  else if discriminant < 0 then
    let realPart := t / 2
    let imagPart := Rat.sqrt (-discriminant) / 2
    let type : EigenvalueType :=
      if |realPart| < 1 / 10000000000 then .pure_imaginary
      else if realPart < 0 then .complex_negative_real
      else .complex_positive_real
    ⟨type, ⟨realPart, imagPart⟩, ⟨realPart, -imagPart⟩⟩
  else
    let l := t / 2
    ⟨if l < 0 then .real_repeated_negative else .real_repeated_positive,
     ⟨l, 0⟩, ⟨l, 0⟩⟩

def getEquilibriumName : EigenvalueType → String
  | .real_distinct_negative => "stable node"
  | .real_distinct_positive => "unstable node"
  | .real_distinct_mixed => "saddle"
  | .real_repeated_negative => "stable degenerate node"
  | .real_repeated_positive => "unstable degenerate node"
  | .complex_negative_real => "stable spiral (focus)"
  | .complex_positive_real => "unstable spiral (focus)"
  | .pure_imaginary => "center"

def isStable : EigenvalueType → Bool
  | .real_distinct_negative => true
  | .real_repeated_negative => true
  | .complex_negative_real => true
  | _ => false

/-- `matrixFromRealEigenvalues(l1, l2, rng)`: diagonal, or upper triangular
with a small off-diagonal entry. -/
def matrixFromRealEigenvalues (l1 l2 : ℚ) (s : DrawSource) :
    Matrix2x2 × DrawSource :=
  let (r, s1) := s.draw
  if (1 : ℚ) / 2 < r then (⟨l1, 0, 0, l2⟩, s1)
  else
    let (offDiag, s2) := randomChoice s1 [(-1 : ℤ), 1, 2, -2]
    (⟨l1, (offDiag : ℚ), 0, l2⟩, s2)

/-- `matrixFromRepeatedEigenvalue(l, rng)`: diagonal (star node) or Jordan
block. -/
def matrixFromRepeatedEigenvalue (l : ℚ) (s : DrawSource) :
    Matrix2x2 × DrawSource :=
  let (r, s1) := s.draw
  if (1 : ℚ) / 2 < r then (⟨l, 0, 0, l⟩, s1)
  else (⟨l, 1, 0, l⟩, s1)

/-- `matrixFromComplexEigenvalues(alpha, beta)`: the rotation-scaling block
`[[α, −β], [β, α]]`. -/
def matrixFromComplexEigenvalues (alpha beta : ℚ) : Matrix2x2 :=
  ⟨alpha, -beta, beta, alpha⟩

/-- `generateMatrixWithEigenvalues(targetType, rng)`. -/
def generateMatrixWithEigenvalues (targetType : EigenvalueType)
    (s : DrawSource) : Matrix2x2 × DrawSource :=
  match targetType with
  | .real_distinct_negative =>
    let (v1, s1) := randomInt s 2 4 false
    let l1 : ℤ := -v1
    let (v2, s2) := randomInt s1 1 (|l1| - 1) false
    matrixFromRealEigenvalues (l1 : ℚ) (-v2 : ℤ) s2
  | .real_distinct_positive =>
    let (l1, s1) := randomInt s 1 3 false
    let (l2, s2) := randomInt s1 (l1 + 1) 4 false
    matrixFromRealEigenvalues (l1 : ℚ) (l2 : ℚ) s2
  | .real_distinct_mixed =>
    let (l1, s1) := randomInt s 1 3 false
    let (v2, s2) := randomInt s1 1 3 false
    matrixFromRealEigenvalues (l1 : ℚ) (-v2 : ℤ) s2
  | .real_repeated_negative =>
    let (v, s1) := randomInt s 1 3 false
    matrixFromRepeatedEigenvalue (-v : ℤ) s1
  | .real_repeated_positive =>
    let (v, s1) := randomInt s 1 3 false
    matrixFromRepeatedEigenvalue (v : ℚ) s1
  | .complex_negative_real =>
    let (v, s1) := randomInt s 1 2 false
    let (beta, s2) := randomInt s1 1 3 false
    (matrixFromComplexEigenvalues (-v : ℤ) (beta : ℚ), s2)
  | .complex_positive_real =>
    let (alpha, s1) := randomInt s 1 2 false
    let (beta, s2) := randomInt s1 1 3 false
    (matrixFromComplexEigenvalues (alpha : ℚ) (beta : ℚ), s2)
  | .pure_imaginary =>
    let (beta, s1) := randomInt s 1 3 false
    (matrixFromComplexEigenvalues 0 (beta : ℚ), s1)

def identityMatrix : Matrix2x2 := ⟨1, 0, 0, 1⟩

/-- C9.  `inverse` succeeds exactly on `|det| ≥ 1e-10`, and where it
succeeds it produces a genuine two-sided inverse. -/
theorem inverse_spec (m : Matrix2x2) :
    ((1 : ℚ) / 10000000000 ≤ |det m| →
      ∃ mi, inverse m = some mi ∧ multiply m mi = identityMatrix ∧
        multiply mi m = identityMatrix) ∧
    (inverse m = none ↔ |det m| < 1 / 10000000000) := by
  have hdet : det m = m.m00 * m.m11 - m.m01 * m.m10 := rfl
  constructor
  · intro h
    have hlt : ¬ |det m| < 1 / 10000000000 := not_lt.mpr h
    have hd : det m ≠ 0 := by
      intro h0
      rw [h0] at h
      norm_num at h
    have hd' : m.m00 * m.m11 - m.m01 * m.m10 ≠ 0 := by rw [← hdet]; exact hd
    refine ⟨⟨m.m11 / det m, -m.m01 / det m, -m.m10 / det m, m.m00 / det m⟩,
      ?_, ?_, ?_⟩
    · rw [inverse, if_neg hlt]
    · simp only [multiply, identityMatrix, Matrix2x2.mk.injEq]
      refine ⟨?_, ?_, ?_, ?_⟩ <;> (rw [hdet]; field_simp; ring)
    · simp only [multiply, identityMatrix, Matrix2x2.mk.injEq]
      refine ⟨?_, ?_, ?_, ?_⟩ <;> (rw [hdet]; field_simp; ring)
  · constructor
    · intro h
      by_contra hge
      rw [inverse, if_neg hge] at h
      exact Option.some_ne_none _ h
    · intro h
      rw [inverse, if_pos h]

/-- Witness for C9 at `m = [[2, 1], [1, 1]]` (det 1). -/
theorem inverse_spec_witness :
    ∃ mi, inverse ⟨2, 1, 1, 1⟩ = some mi ∧
      multiply ⟨2, 1, 1, 1⟩ mi = identityMatrix ∧
      multiply mi ⟨2, 1, 1, 1⟩ = identityMatrix :=
  (inverse_spec ⟨2, 1, 1, 1⟩).1 (by norm_num [det])

/-- C10.  A matrix with zero trace and zero determinant (repeated eigenvalue
0) is classified `real_repeated_positive` with both eigenvalues 0, and that
class is not stable. -/
theorem classify_zero_trace_det (m : Matrix2x2)
    (ht : trace m = 0) (hd : det m = 0) :
    classifyEigenvalues m =
      ⟨.real_repeated_positive, ⟨0, 0⟩, ⟨0, 0⟩⟩ ∧
    isStable .real_repeated_positive = false := by
  refine ⟨?_, rfl⟩
  unfold classifyEigenvalues
  rw [ht, hd]
  norm_num

/-- Witness for C10 at the zero matrix. -/
theorem classify_zero_trace_det_witness :
    classifyEigenvalues ⟨0, 0, 0, 0⟩ =
      ⟨.real_repeated_positive, ⟨0, 0⟩, ⟨0, 0⟩⟩ ∧
    isStable .real_repeated_positive = false :=
  classify_zero_trace_det ⟨0, 0, 0, 0⟩ (by norm_num [trace]) (by norm_num [det])

/-! ## C3: eigenvalue classification round-trip -/

/-- Drawing from a `[0,1)` value lands `randomInt` in `[min, max]`. -/
theorem randomInt_false_eq (s : DrawSource) (min max : ℤ) :
    randomInt s min max false =
      (⌊s.f s.k * ((max - min + 1 : ℤ) : ℚ)⌋ + min, ⟨s.f, s.k + 1⟩) := rfl

theorem floorVal_bounds (r : ℚ) (h0 : 0 ≤ r) (h1 : r < 1) (min max : ℤ)
    (hmm : min ≤ max) :
    min ≤ ⌊r * ((max - min + 1 : ℤ) : ℚ)⌋ + min ∧
      ⌊r * ((max - min + 1 : ℤ) : ℚ)⌋ + min ≤ max := by
  have hK : (0 : ℚ) ≤ ((max - min + 1 : ℤ) : ℚ) := by
    have : (0 : ℤ) ≤ max - min + 1 := by omega
    exact_mod_cast this
  constructor
  · have : (0 : ℤ) ≤ ⌊r * ((max - min + 1 : ℤ) : ℚ)⌋ :=
      Int.floor_nonneg.mpr (mul_nonneg h0 hK)
    omega
  · have hKpos : (0 : ℚ) < ((max - min + 1 : ℤ) : ℚ) := by
      have : (0 : ℤ) < max - min + 1 := by omega
      exact_mod_cast this
    have : ⌊r * ((max - min + 1 : ℤ) : ℚ)⌋ < max - min + 1 := by
      rw [Int.floor_lt]
      push_cast at hKpos ⊢
      nlinarith
    omega

/-- `classifyEigenvalues` on any matrix with trace `x + y` and determinant
`x * y`, `y < x` (two distinct real eigenvalues). -/
theorem classify_real_distinct (m : Matrix2x2) (x y : ℚ) (hxy : y < x)
    (ht : trace m = x + y) (hd : det m = x * y) :
    classifyEigenvalues m =
      ⟨if x < 0 ∧ y < 0 then .real_distinct_negative
        else if 0 < x ∧ 0 < y then .real_distinct_positive
        else .real_distinct_mixed, ⟨x, 0⟩, ⟨y, 0⟩⟩ := by
  simp only [classifyEigenvalues, ht, hd]
  have hdisc : (x + y) * (x + y) - 4 * (x * y) = (x - y) * (x - y) := by ring
  rw [hdisc, if_pos (by nlinarith : (0 : ℚ) < (x - y) * (x - y)), Rat.sqrt_eq,
    abs_of_pos (by linarith : (0 : ℚ) < x - y)]
  have h1 : (x + y + (x - y)) / 2 = x := by ring
  have h2 : (x + y - (x - y)) / 2 = y := by ring
  rw [h1, h2]

/-- `classifyEigenvalues` on any matrix with trace `l + l` and determinant
`l * l` (repeated eigenvalue `l`). -/
theorem classify_real_repeated (m : Matrix2x2) (l : ℚ)
    (ht : trace m = l + l) (hd : det m = l * l) :
    classifyEigenvalues m =
      ⟨if l < 0 then .real_repeated_negative else .real_repeated_positive,
        ⟨l, 0⟩, ⟨l, 0⟩⟩ := by
  simp only [classifyEigenvalues, ht, hd]
  have hdisc : (l + l) * (l + l) - 4 * (l * l) = 0 := by ring
  rw [hdisc]
  have h2 : (l + l) / 2 = l := by ring
  rw [if_neg (by norm_num), if_neg (by norm_num), h2]

/-- `classifyEigenvalues` on any matrix with trace `2α` and determinant
`α² + β²`, `β > 0` (complex pair `α ± iβ`). -/
theorem classify_complex_pair (m : Matrix2x2) (alpha beta : ℚ) (hb : 0 < beta)
    (ht : trace m = alpha + alpha) (hd : det m = alpha * alpha + beta * beta) :
    classifyEigenvalues m =
      ⟨if |alpha| < 1 / 10000000000 then .pure_imaginary
        else if alpha < 0 then .complex_negative_real
        else .complex_positive_real,
        ⟨alpha, beta⟩, ⟨alpha, -beta⟩⟩ := by
  simp only [classifyEigenvalues, ht, hd]
  have hdisc : (alpha + alpha) * (alpha + alpha) -
      4 * (alpha * alpha + beta * beta) = -((2 * beta) * (2 * beta)) := by ring
  rw [hdisc]
  rw [if_neg (by nlinarith : ¬ (0 : ℚ) < -((2 * beta) * (2 * beta)))]
  rw [if_pos (by nlinarith : -((2 * beta) * (2 * beta)) < (0 : ℚ))]
  have hsq : -(-((2 * beta) * (2 * beta))) = (2 * beta) * (2 * beta) := by ring
  rw [hsq, Rat.sqrt_eq, abs_of_pos (by linarith : (0 : ℚ) < 2 * beta)]
  have h2 : (alpha + alpha) / 2 = alpha := by ring
  have h3 : 2 * beta / 2 = beta := by ring
  rw [h2, h3]

theorem matrixFromRealEigenvalues_props (l1 l2 : ℚ) (s : DrawSource) :
    trace (matrixFromRealEigenvalues l1 l2 s).1 = l1 + l2 ∧
    det (matrixFromRealEigenvalues l1 l2 s).1 = l1 * l2 := by
  unfold matrixFromRealEigenvalues
  simp only [DrawSource.draw]
  split
  · exact ⟨rfl, by simp [det]⟩
  · simp only [randomChoice, DrawSource.draw]
    exact ⟨rfl, by simp [det]⟩

theorem matrixFromRepeatedEigenvalue_props (l : ℚ) (s : DrawSource) :
    trace (matrixFromRepeatedEigenvalue l s).1 = l + l ∧
    det (matrixFromRepeatedEigenvalue l s).1 = l * l := by
  unfold matrixFromRepeatedEigenvalue
  simp only [DrawSource.draw]
  split
  · exact ⟨rfl, by simp [det]⟩
  · exact ⟨rfl, by simp [det]⟩

theorem matrixFromComplexEigenvalues_props (alpha beta : ℚ) :
    trace (matrixFromComplexEigenvalues alpha beta) = alpha + alpha ∧
    det (matrixFromComplexEigenvalues alpha beta) =
      alpha * alpha + beta * beta := by
  refine ⟨rfl, ?_⟩
  simp [matrixFromComplexEigenvalues, det]

theorem roundtrip_neg_core (v1 v2 : ℤ) (h1 : 2 ≤ v1) (h2 : 1 ≤ v2)
    (h3 : v2 ≤ v1 - 1) (s : DrawSource) :
    (classifyEigenvalues
      (matrixFromRealEigenvalues ((-v1 : ℤ) : ℚ) ((-v2 : ℤ) : ℚ) s).1).type =
      .real_distinct_negative := by
  obtain ⟨ht, hd⟩ := matrixFromRealEigenvalues_props ((-v1 : ℤ) : ℚ) ((-v2 : ℤ) : ℚ) s
  have hxy : ((-v1 : ℤ) : ℚ) < ((-v2 : ℤ) : ℚ) := by
    exact_mod_cast (by omega : (-v1 : ℤ) < -v2)
  rw [classify_real_distinct _ ((-v2 : ℤ) : ℚ) ((-v1 : ℤ) : ℚ) hxy
    (by rw [ht]; ring) (by rw [hd]; ring)]
  have hx : ((-v2 : ℤ) : ℚ) < 0 := by exact_mod_cast (by omega : (-v2 : ℤ) < 0)
  have hy : ((-v1 : ℤ) : ℚ) < 0 := by exact_mod_cast (by omega : (-v1 : ℤ) < 0)
  rw [if_pos ⟨hx, hy⟩]

theorem roundtrip_pos_core (v1 v2 : ℤ) (h1 : 1 ≤ v1) (h2 : v1 + 1 ≤ v2)
    (s : DrawSource) :
    (classifyEigenvalues
      (matrixFromRealEigenvalues (v1 : ℚ) (v2 : ℚ) s).1).type =
      .real_distinct_positive := by
  obtain ⟨ht, hd⟩ := matrixFromRealEigenvalues_props (v1 : ℚ) (v2 : ℚ) s
  have hxy : ((v1 : ℤ) : ℚ) < ((v2 : ℤ) : ℚ) := by
    exact_mod_cast (by omega : (v1 : ℤ) < v2)
  rw [classify_real_distinct _ (v2 : ℚ) (v1 : ℚ) hxy
    (by rw [ht]; ring) (by rw [hd]; ring)]
  have hx : (0 : ℚ) < (v2 : ℚ) := by exact_mod_cast (by omega : (0 : ℤ) < v2)
  have hy : (0 : ℚ) < (v1 : ℚ) := by exact_mod_cast (by omega : (0 : ℤ) < v1)
  rw [if_neg (by rintro ⟨hc, -⟩; exact absurd hc (not_lt.mpr hx.le)),
    if_pos ⟨hx, hy⟩]

theorem roundtrip_mixed_core (v1 v2 : ℤ) (h1 : 1 ≤ v1) (h2 : 1 ≤ v2)
    (s : DrawSource) :
    (classifyEigenvalues
      (matrixFromRealEigenvalues (v1 : ℚ) ((-v2 : ℤ) : ℚ) s).1).type =
      .real_distinct_mixed := by
  obtain ⟨ht, hd⟩ := matrixFromRealEigenvalues_props (v1 : ℚ) ((-v2 : ℤ) : ℚ) s
  have hxy : ((-v2 : ℤ) : ℚ) < ((v1 : ℤ) : ℚ) := by
    exact_mod_cast (by omega : (-v2 : ℤ) < v1)
  rw [classify_real_distinct _ (v1 : ℚ) ((-v2 : ℤ) : ℚ) hxy ht hd]
  have hx : (0 : ℚ) < (v1 : ℚ) := by exact_mod_cast (by omega : (0 : ℤ) < v1)
  have hy : ((-v2 : ℤ) : ℚ) < 0 := by exact_mod_cast (by omega : (-v2 : ℤ) < 0)
  rw [if_neg (by rintro ⟨hc, -⟩; exact absurd hc (not_lt.mpr hx.le)),
    if_neg (by rintro ⟨-, hc⟩; exact absurd hc (not_lt.mpr hy.le))]

theorem roundtrip_rneg_core (v : ℤ) (h1 : 1 ≤ v) (s : DrawSource) :
    (classifyEigenvalues
      (matrixFromRepeatedEigenvalue ((-v : ℤ) : ℚ) s).1).type =
      .real_repeated_negative := by
  obtain ⟨ht, hd⟩ := matrixFromRepeatedEigenvalue_props ((-v : ℤ) : ℚ) s
  rw [classify_real_repeated _ ((-v : ℤ) : ℚ) ht hd]
  have hl : ((-v : ℤ) : ℚ) < 0 := by exact_mod_cast (by omega : (-v : ℤ) < 0)
  rw [if_pos hl]

theorem roundtrip_rpos_core (v : ℤ) (h1 : 1 ≤ v) (s : DrawSource) :
    (classifyEigenvalues
      (matrixFromRepeatedEigenvalue (v : ℚ) s).1).type =
      .real_repeated_positive := by
  obtain ⟨ht, hd⟩ := matrixFromRepeatedEigenvalue_props (v : ℚ) s
  rw [classify_real_repeated _ (v : ℚ) ht hd]
  have hl : (0 : ℚ) < (v : ℚ) := by exact_mod_cast (by omega : (0 : ℤ) < v)
  rw [if_neg (not_lt.mpr hl.le)]

theorem roundtrip_cneg_core (v b : ℤ) (h1 : 1 ≤ v) (h2 : 1 ≤ b) :
    (classifyEigenvalues
      (matrixFromComplexEigenvalues ((-v : ℤ) : ℚ) (b : ℚ))).type =
      .complex_negative_real := by
  obtain ⟨ht, hd⟩ := matrixFromComplexEigenvalues_props ((-v : ℤ) : ℚ) (b : ℚ)
  have hb : (0 : ℚ) < (b : ℚ) := by exact_mod_cast (by omega : (0 : ℤ) < b)
  rw [classify_complex_pair _ ((-v : ℤ) : ℚ) (b : ℚ) hb ht hd]
  have hv : ((-v : ℤ) : ℚ) ≤ -1 := by exact_mod_cast (by omega : (-v : ℤ) ≤ -1)
  have hv1 : (1 : ℚ) ≤ (v : ℚ) := by exact_mod_cast h1
  have habs : ¬ |((-v : ℤ) : ℚ)| < 1 / 10000000000 := by
    rw [abs_of_nonpos (by linarith)]
    push_cast
    exact not_lt.mpr (by linarith)
  rw [if_neg habs, if_pos (by linarith : ((-v : ℤ) : ℚ) < 0)]

theorem roundtrip_cpos_core (v b : ℤ) (h1 : 1 ≤ v) (h2 : 1 ≤ b) :
    (classifyEigenvalues
      (matrixFromComplexEigenvalues (v : ℚ) (b : ℚ))).type =
      .complex_positive_real := by
  obtain ⟨ht, hd⟩ := matrixFromComplexEigenvalues_props (v : ℚ) (b : ℚ)
  have hb : (0 : ℚ) < (b : ℚ) := by exact_mod_cast (by omega : (0 : ℤ) < b)
  rw [classify_complex_pair _ (v : ℚ) (b : ℚ) hb ht hd]
  have hv : (1 : ℚ) ≤ (v : ℚ) := by exact_mod_cast h1
  have habs : ¬ |((v : ℤ) : ℚ)| < 1 / 10000000000 := by
    rw [abs_of_nonneg (by linarith)]
    exact not_lt.mpr (by linarith)
  rw [if_neg habs, if_neg (not_lt.mpr (by linarith : (0 : ℚ) ≤ (v : ℚ)))]

theorem roundtrip_pure_core (b : ℤ) (h2 : 1 ≤ b) :
    (classifyEigenvalues (matrixFromComplexEigenvalues 0 (b : ℚ))).type =
      .pure_imaginary := by
  obtain ⟨ht, hd⟩ := matrixFromComplexEigenvalues_props 0 (b : ℚ)
  have hb : (0 : ℚ) < (b : ℚ) := by exact_mod_cast (by omega : (0 : ℤ) < b)
  rw [classify_complex_pair _ 0 (b : ℚ) hb ht hd]
  rw [if_pos (by norm_num)]

/-- C3.  For every `EigenvalueType` tag and every draw stream whose values
all lie in `[0,1)`, classifying the matrix generated for that tag returns
the tag. -/
theorem generate_classify_roundtrip (tag : EigenvalueType) (f : ℕ → ℚ)
    (k : ℕ) (hf : ∀ n, 0 ≤ f n ∧ f n < 1) :
    (classifyEigenvalues
      (generateMatrixWithEigenvalues tag ⟨f, k⟩).1).type = tag := by
  cases tag with
  | real_distinct_negative =>
    obtain ⟨h1, h2⟩ := floorVal_bounds (f k) (hf k).1 (hf k).2 2 4 (by omega)
    set a : ℤ := ⌊f k * ((4 - 2 + 1 : ℤ) : ℚ)⌋ + 2 with ha
    have habs : |(-a : ℤ)| = a := by
      rw [abs_neg]; exact abs_of_nonneg (by omega)
    obtain ⟨h3, h4⟩ := floorVal_bounds (f (k + 1)) (hf (k + 1)).1 (hf (k + 1)).2
      1 (|(-a : ℤ)| - 1) (by rw [habs]; omega)
    set b : ℤ := ⌊f (k + 1) * ((|(-a : ℤ)| - 1 - 1 + 1 : ℤ) : ℚ)⌋ + 1 with hb
    have e : generateMatrixWithEigenvalues .real_distinct_negative ⟨f, k⟩ =
        matrixFromRealEigenvalues ((-a : ℤ) : ℚ) ((-b : ℤ) : ℚ) ⟨f, k + 2⟩ := rfl
    rw [e]
    rw [habs] at h4
    exact roundtrip_neg_core a b (by omega) (by omega) (by omega) _
  | real_distinct_positive =>
    obtain ⟨h1, h2⟩ := floorVal_bounds (f k) (hf k).1 (hf k).2 1 3 (by omega)
    set a : ℤ := ⌊f k * ((3 - 1 + 1 : ℤ) : ℚ)⌋ + 1 with ha
    obtain ⟨h3, h4⟩ := floorVal_bounds (f (k + 1)) (hf (k + 1)).1 (hf (k + 1)).2
      (a + 1) 4 (by omega)
    set b : ℤ := ⌊f (k + 1) * ((4 - (a + 1) + 1 : ℤ) : ℚ)⌋ + (a + 1) with hb
    have e : generateMatrixWithEigenvalues .real_distinct_positive ⟨f, k⟩ =
        matrixFromRealEigenvalues (a : ℚ) (b : ℚ) ⟨f, k + 2⟩ := rfl
    rw [e]
    exact roundtrip_pos_core a b (by omega) (by omega) _
  | real_distinct_mixed =>
    obtain ⟨h1, h2⟩ := floorVal_bounds (f k) (hf k).1 (hf k).2 1 3 (by omega)
    set a : ℤ := ⌊f k * ((3 - 1 + 1 : ℤ) : ℚ)⌋ + 1 with ha
    obtain ⟨h3, h4⟩ := floorVal_bounds (f (k + 1)) (hf (k + 1)).1 (hf (k + 1)).2
      1 3 (by omega)
    set b : ℤ := ⌊f (k + 1) * ((3 - 1 + 1 : ℤ) : ℚ)⌋ + 1 with hb
    have e : generateMatrixWithEigenvalues .real_distinct_mixed ⟨f, k⟩ =
        matrixFromRealEigenvalues (a : ℚ) ((-b : ℤ) : ℚ) ⟨f, k + 2⟩ := rfl
    rw [e]
    exact roundtrip_mixed_core a b (by omega) (by omega) _
  | real_repeated_negative =>
    obtain ⟨h1, h2⟩ := floorVal_bounds (f k) (hf k).1 (hf k).2 1 3 (by omega)
    set a : ℤ := ⌊f k * ((3 - 1 + 1 : ℤ) : ℚ)⌋ + 1 with ha
    have e : generateMatrixWithEigenvalues .real_repeated_negative ⟨f, k⟩ =
        matrixFromRepeatedEigenvalue ((-a : ℤ) : ℚ) ⟨f, k + 1⟩ := rfl
    rw [e]
    exact roundtrip_rneg_core a (by omega) _
  | real_repeated_positive =>
    obtain ⟨h1, h2⟩ := floorVal_bounds (f k) (hf k).1 (hf k).2 1 3 (by omega)
    set a : ℤ := ⌊f k * ((3 - 1 + 1 : ℤ) : ℚ)⌋ + 1 with ha
    have e : generateMatrixWithEigenvalues .real_repeated_positive ⟨f, k⟩ =
        matrixFromRepeatedEigenvalue (a : ℚ) ⟨f, k + 1⟩ := rfl
    rw [e]
    exact roundtrip_rpos_core a (by omega) _
  | complex_negative_real =>
    obtain ⟨h1, h2⟩ := floorVal_bounds (f k) (hf k).1 (hf k).2 1 2 (by omega)
    set a : ℤ := ⌊f k * ((2 - 1 + 1 : ℤ) : ℚ)⌋ + 1 with ha
    obtain ⟨h3, h4⟩ := floorVal_bounds (f (k + 1)) (hf (k + 1)).1 (hf (k + 1)).2
      1 3 (by omega)
    set b : ℤ := ⌊f (k + 1) * ((3 - 1 + 1 : ℤ) : ℚ)⌋ + 1 with hb
    have e : generateMatrixWithEigenvalues .complex_negative_real ⟨f, k⟩ =
        (matrixFromComplexEigenvalues ((-a : ℤ) : ℚ) (b : ℚ),
          (⟨f, k + 2⟩ : DrawSource)) := rfl
    rw [e]
    exact roundtrip_cneg_core a b (by omega) (by omega)
  | complex_positive_real =>
    obtain ⟨h1, h2⟩ := floorVal_bounds (f k) (hf k).1 (hf k).2 1 2 (by omega)
    set a : ℤ := ⌊f k * ((2 - 1 + 1 : ℤ) : ℚ)⌋ + 1 with ha
    obtain ⟨h3, h4⟩ := floorVal_bounds (f (k + 1)) (hf (k + 1)).1 (hf (k + 1)).2
      1 3 (by omega)
    set b : ℤ := ⌊f (k + 1) * ((3 - 1 + 1 : ℤ) : ℚ)⌋ + 1 with hb
    have e : generateMatrixWithEigenvalues .complex_positive_real ⟨f, k⟩ =
        (matrixFromComplexEigenvalues (a : ℚ) (b : ℚ),
          (⟨f, k + 2⟩ : DrawSource)) := rfl
    rw [e]
    exact roundtrip_cpos_core a b (by omega) (by omega)
  | pure_imaginary =>
    obtain ⟨h1, h2⟩ := floorVal_bounds (f k) (hf k).1 (hf k).2 1 3 (by omega)
    set a : ℤ := ⌊f k * ((3 - 1 + 1 : ℤ) : ℚ)⌋ + 1 with ha
    have e : generateMatrixWithEigenvalues .pure_imaginary ⟨f, k⟩ =
        (matrixFromComplexEigenvalues 0 (a : ℚ), (⟨f, k + 1⟩ : DrawSource)) := rfl
    rw [e]
    exact roundtrip_pure_core a (by omega)

/-- Witness for C3: the constant-zero draw stream and the
`pure_imaginary` tag. -/
theorem generate_classify_roundtrip_witness :
    (classifyEigenvalues
      (generateMatrixWithEigenvalues .pure_imaginary
        ⟨fun _ => 0, 0⟩).1).type = .pure_imaginary :=
  generate_classify_roundtrip .pure_imaginary (fun _ => 0) 0
    (fun _ => ⟨le_refl 0, by norm_num⟩)

/-! ## Polynomial utilities (`src/generators/utils/polynomial.ts`) -/

/-- A polynomial term `{ coefficient, power }`. -/
structure Term where
  coefficient : ℚ
  power : ℕ
deriving DecidableEq

/-- The source's `Polynomial` interface (`{ terms: Term[] }`); named
`Poly1D` here because Mathlib already owns the root names `Polynomial`
and `Poly`. -/
structure Poly1D where
  terms : List Term
deriving DecidableEq

/-- `evaluatePolynomial(p, x)`: left fold of `sum + coef * x^power` over the
terms, starting from 0. -/
def evaluatePolynomial (p : Poly1D) (x : ℚ) : ℚ :=
  p.terms.foldl (fun sum t => sum + t.coefficient * x ^ t.power) 0

/-- `derivativePolynomial(p)`: term-wise power rule, with the zero
polynomial represented as the single term `(0, 0)`. -/
def derivativePolynomial (p : Poly1D) : Poly1D :=
  let terms := (p.terms.filter fun t => 0 < t.power).map
    fun t => Term.mk (t.coefficient * t.power) (t.power - 1)
  ⟨if 0 < terms.length then terms else [⟨0, 0⟩]⟩

/-- JavaScript `Math.round`: half away from zero toward `+∞`. -/
def jsRound (x : ℚ) : ℤ := ⌊x + 1 / 2⌋

/-- `Math.round(x * 1000) / 1000`: accepted roots are rounded to three
decimal places. -/
def roundTo3 (x : ℚ) : ℚ := (jsRound (x * 1000) : ℚ) / 1000

/-- The inner Newton loop of `findRoots`: up to 50 iterations from one
starting point, pushing at most one accepted root onto `roots`. -/
def newtonIter (p dp : Poly1D) (tolerance : ℚ) (roots : List ℚ) :
    ℚ → ℕ → List ℚ
  | _, 0 => roots
  | x, i + 1 =>
    let fx := evaluatePolynomial p x
    let dfx := evaluatePolynomial dp x
    if |dfx| < 1 / 1000000000000 then roots
    else
      let xNew := x - fx / dfx
      if |xNew - x| < tolerance then
        if (∀ r ∈ roots, ¬ |r - xNew| < 1 / 100) ∧
            |evaluatePolynomial p xNew| < 1 / 1000000 then
          roots ++ [roundTo3 xNew]
        else roots
      else newtonIter p dp tolerance roots xNew i

/-- The outer loop of `findRoots` over the starting points
`min, min + step, …`; the iteration count is passed explicitly
(`⌊(max - min)/step⌋ + 1` starts satisfy `x0 ≤ max`). -/
def rootScan (p dp : Poly1D) (tolerance step : ℚ) :
    ℚ → ℕ → List ℚ → List ℚ
  | _, 0, roots => roots
  | x0, n + 1, roots =>
    rootScan p dp tolerance step (x0 + step) n
      (newtonIter p dp tolerance roots x0 50)

/-- Insertion of one element into an ascending list (for the final
`sort((a, b) => a - b)`). -/
def insertSorted (x : ℚ) : List ℚ → List ℚ
  | [] => [x]
  | y :: ys => if x ≤ y then x :: y :: ys else y :: insertSorted x ys

/-- Ascending sort by insertion. -/
def sortAsc : List ℚ → List ℚ
  | [] => []
  | x :: xs => insertSorted x (sortAsc xs)

/-- `findRoots(p, searchRange, tolerance)`: multi-start Newton at step 0.5
across the range, deduplicating within 0.01, verifying `|f(root)| < 1e-6`,
rounding to 3 decimals and sorting ascending. -/
def findRoots (p : Poly1D) (searchRange : ℚ × ℚ) (tolerance : ℚ) : List ℚ :=
  let dp := derivativePolynomial p
  let step : ℚ := 1 / 2
  let count : ℕ :=
    if searchRange.1 ≤ searchRange.2 then
      (⌊(searchRange.2 - searchRange.1) / step⌋).toNat + 1
    else 0
  sortAsc (rootScan p dp tolerance step searchRange.1 count [])

/-- The three verdicts of `analyzeStability1D`. -/
inductive Stability where
  | stable
  | unstable
  | semistable
deriving DecidableEq

/-- `analyzeStability1D(p, x0)`: sign of `f'(x0)` with a `1e-8` dead zone
mapped to `semistable`. -/
def analyzeStability1D (p : Poly1D) (x0 : ℚ) : Stability :=
  let dp := derivativePolynomial p
  let derivative := evaluatePolynomial dp x0
  if |derivative| > 1 / 100000000 then
    (if derivative < 0 then .stable else .unstable)
  else .semistable

/-- C5 counterexample: `p(x) = -(2^-30)·x` has derivative `-2^-30`, strictly
negative, but `|f'(0)| ≤ 1e-8` makes `analyzeStability1D` return
`semistable`, not the `stable` the claim's "strictly negative ⇒ stable"
clause demands. -/
theorem analyzeStability1D_claim_false :
    ¬ (∀ (p : Poly1D) (x0 : ℚ),
        evaluatePolynomial (derivativePolynomial p) x0 < 0 →
        analyzeStability1D p x0 = .stable) := by
  intro h
  have hval : evaluatePolynomial
      (derivativePolynomial ⟨[⟨-(1 / 1073741824), 1⟩]⟩) 0 =
        -(1 / 1073741824) := by with_unfolding_all rfl
  have hc := h ⟨[⟨-(1 / 1073741824), 1⟩]⟩ 0 (by rw [hval]; norm_num)
  have he : analyzeStability1D ⟨[⟨-(1 / 1073741824), 1⟩]⟩ 0 =
      .semistable := by with_unfolding_all rfl
  exact absurd (he.symm.trans hc) (by decide)

/-- C5 amended: `stable` exactly when `f'(x0) < -1e-8`, `unstable` exactly
when `f'(x0) > 1e-8`, `semistable` exactly when `|f'(x0)| ≤ 1e-8`; in
particular `f(x) = -x`, `f(x) = x` and `f(x) = x²` at the origin give
`stable`, `unstable` and `semistable` respectively. -/
theorem analyzeStability1D_spec (p : Poly1D) (x0 : ℚ) :
    (analyzeStability1D p x0 =
      if evaluatePolynomial (derivativePolynomial p) x0 < -(1 / 100000000)
        then .stable
      else if (1 : ℚ) / 100000000 <
          evaluatePolynomial (derivativePolynomial p) x0
        then .unstable
      else .semistable) ∧
    analyzeStability1D ⟨[⟨-1, 1⟩]⟩ 0 = .stable ∧
    analyzeStability1D ⟨[⟨1, 1⟩]⟩ 0 = .unstable ∧
    analyzeStability1D ⟨[⟨1, 2⟩]⟩ 0 = .semistable := by
  refine ⟨?_, by with_unfolding_all rfl, by with_unfolding_all rfl,
    by with_unfolding_all rfl⟩
  by_cases hs : evaluatePolynomial (derivativePolynomial p) x0 < -(1 / 100000000)
  · rw [if_pos hs]
    simp only [analyzeStability1D]
    rw [if_pos (by rw [abs_of_neg (by linarith)]; linarith), if_pos (by linarith)]
  · rw [if_neg hs]
    by_cases hu : (1 : ℚ) / 100000000 <
        evaluatePolynomial (derivativePolynomial p) x0
    · rw [if_pos hu]
      simp only [analyzeStability1D]
      rw [if_pos (by rw [abs_of_pos (by linarith)]; linarith),
        if_neg (by linarith :
          ¬ evaluatePolynomial (derivativePolynomial p) x0 < 0)]
    · rw [if_neg hu]
      simp only [analyzeStability1D]
      rw [if_neg (by rw [not_lt]; exact abs_le.mpr ⟨by linarith, by linarith⟩)]

set_option maxRecDepth 100000 in
set_option maxHeartbeats 1000000 in
/-- C6.  On `f(x) = x` with the default range `[-10, 10]` and default
tolerance `1e-8`, `findRoots` returns exactly `[0]`. -/
theorem findRoots_linear :
    findRoots ⟨[⟨1, 1⟩]⟩ (-10, 10) (1 / 100000000) = [0] := by
  with_unfolding_all rfl

/-! ## Question data model (`src/types/question.ts`) -/

inductive QuestionType where
  | true_false
  | multiple_choice
  | matching
  | classification
deriving DecidableEq

inductive Topic where
  | stability_1d
  | linear_systems_2d
  | equilibrium_classification
  | bifurcation_saddle_node
  | bifurcation_transcritical
  | bifurcation_pitchfork
  | bifurcation_hopf
  | center_manifold
  | invariant_manifolds
  | phase_portraits
  | topological_index
  | lyapunov_functions
  | hamiltonian_systems
deriving DecidableEq

/-- The 13 `Topic` enum members in declaration order
(`Object.values(Topic)`). -/
def allTopics : List Topic :=
  [.stability_1d, .linear_systems_2d, .equilibrium_classification,
   .bifurcation_saddle_node, .bifurcation_transcritical,
   .bifurcation_pitchfork, .bifurcation_hopf, .center_manifold,
   .invariant_manifolds, .phase_portraits, .topological_index,
   .lyapunov_functions, .hamiltonian_systems]

inductive Difficulty where
  | conceptual
  | light
  | moderate
  | heavy
deriving DecidableEq

def allDifficulties : List Difficulty := [.conceptual, .light, .moderate, .heavy]

def allQuestionTypes : List QuestionType :=
  [.true_false, .multiple_choice, .matching, .classification]

instance : Inhabited Topic := ⟨.stability_1d⟩

instance : Inhabited Difficulty := ⟨.conceptual⟩

instance : Inhabited QuestionType := ⟨.true_false⟩

inductive PhasePortraitType where
  | stable_node
  | unstable_node
  | saddle
  | stable_spiral
  | unstable_spiral
  | center
deriving DecidableEq, Inhabited

inductive BifurcationDiagramType where
  | saddle_node
  | transcritical
  | pitchfork_super
  | pitchfork_sub
deriving DecidableEq, Inhabited

/-- `DiagramData`; the `type` field is the `'phase_portrait' | 'bifurcation'`
string tag. -/
structure DiagramData where
  type : String
  portraitType : Option PhasePortraitType
  bifurcationType : Option BifurcationDiagramType
deriving DecidableEq

structure BaseQuestion where
  id : String
  type : QuestionType
  topic : Topic
  difficulty : Difficulty
  prompt : String
  explanation : String
  seed : Option ℤ
  diagram : Option DiagramData
deriving DecidableEq

/-- The `Question` tagged union.  Index-valued fields are integers because
JavaScript `indexOf` can yield `-1`. -/
inductive Question where
  | trueFalse (base : BaseQuestion) (correctAnswer : Bool)
  | multipleChoice (base : BaseQuestion) (options : List String)
      (correctIndex : ℤ)
  | matching (base : BaseQuestion) (leftItems rightItems : List String)
      (correctMapping : List ℤ)
  | classification (base : BaseQuestion) (items categories : List String)
      (correctCategories : List ℤ)
deriving DecidableEq

/-- JavaScript `Array.prototype.indexOf`: first index or `-1`. -/
def jsIndexOfAux (x : String) : List String → ℤ → ℤ
  | [], _ => -1
  | y :: ys, i => if y = x then i else jsIndexOfAux x ys (i + 1)

def jsIndexOf (l : List String) (x : String) : ℤ := jsIndexOfAux x l 0

/-- `s.charAt(0).toUpperCase() + s.slice(1)`. -/
def capitalizeFirst (s : String) : String :=
  match s.data with
  | [] => s
  | c :: cs => String.mk (c.toUpper :: cs)

/-! ## The phase-portrait generator (`src/generators/templates/phasePortraits.ts`) -/

structure PortraitInfo where
  eigenvalues : String
  stability : String
  traceSign : String
  detSign : String
  description : String
deriving DecidableEq, Inhabited

def PORTRAIT_INFO : PhasePortraitType → PortraitInfo
  | .stable_node =>
    ⟨"real, distinct, both negative", "asymptotically stable", "negative",
     "positive", "Trajectories approach the origin along straight lines"⟩
  | .unstable_node =>
    ⟨"real, distinct, both positive", "unstable", "positive", "positive",
     "Trajectories move away from the origin along straight lines"⟩
  | .saddle =>
    ⟨"real, distinct, opposite signs", "unstable", "can be any", "negative",
     "Trajectories approach along one axis, move away along the other"⟩
  | .stable_spiral =>
    ⟨"complex with negative real part", "asymptotically stable", "negative",
     "positive", "Trajectories spiral inward toward the origin"⟩
  | .unstable_spiral =>
    ⟨"complex with positive real part", "unstable", "positive", "positive",
     "Trajectories spiral outward from the origin"⟩
  | .center =>
    ⟨"purely imaginary", "stable (but not asymptotically)", "zero",
     "positive", "Closed orbits around the origin"⟩

def ALL_PORTRAIT_TYPES : List PhasePortraitType :=
  [.stable_node, .unstable_node, .saddle, .stable_spiral, .unstable_spiral,
   .center]

def PORTRAIT_NAMES : PhasePortraitType → String
  | .stable_node => "Stable Node"
  | .unstable_node => "Unstable Node"
  | .saddle => "Saddle"
  | .stable_spiral => "Stable Spiral (Focus)"
  | .unstable_spiral => "Unstable Spiral (Focus)"
  | .center => "Center"

/-- `Object.values(PORTRAIT_NAMES)`, in record-key insertion order (which
coincides with `ALL_PORTRAIT_TYPES`). -/
def portraitNamesValues : List String := ALL_PORTRAIT_TYPES.map PORTRAIT_NAMES

structure GeneratorConfig where
  topic : Topic
  difficulty : Difficulty
  type : QuestionType
  seed : Option ℤ

/-- The variant table of `PhasePortraitGenerator.generate`, in array
order; the dynamic method dispatch is modelled as a closed tagged variant
matched below. -/
inductive PPVariant where
  | identifyFromDiagram
  | identifyFromDescription
  | identifyFromEigenvalues
  | identifyStability
  | identifyFromTraceAndDet
  | whichHasProperty
  | diagramProperties
deriving DecidableEq, Inhabited

def ppVariants : List PPVariant :=
  [.identifyFromDiagram, .identifyFromDescription, .identifyFromEigenvalues,
   .identifyStability, .identifyFromTraceAndDet, .whichHasProperty,
   .diagramProperties]

def questionIdentifyFromDiagram (rng amb : DrawSource) (seed : ℤ) :
    Question × DrawSource :=
  let (ptype, rng1) := randomChoice rng ALL_PORTRAIT_TYPES
  let (shuffled, rng2) := shuffle rng1 portraitNamesValues
  let options := shuffled.take 4
  let correctAnswer := PORTRAIT_NAMES ptype
  let options := if correctAnswer ∈ options then options
    else options.set 0 correctAnswer
  let (finalOptions, _) := shuffle rng2 options
  let correctIndex := jsIndexOf finalOptions correctAnswer
  let (id, amb1) := generateId amb
  (.multipleChoice
    { id := id, type := .multiple_choice, topic := .phase_portraits,
      difficulty := .light,
      prompt :=
        "Identify the type of equilibrium point shown in the phase portrait below:",
      explanation := "This is a **" ++ PORTRAIT_NAMES ptype ++ "**. " ++
        (PORTRAIT_INFO ptype).description ++ ". The eigenvalues are " ++
        (PORTRAIT_INFO ptype).eigenvalues ++ ".",
      seed := some seed,
      diagram := some ⟨"phase_portrait", some ptype, none⟩ }
    finalOptions correctIndex, amb1)

/-- The property record of `questionDiagramProperties`. -/
structure PropQuestion where
  question : String
  correctAnswer : String
  wrongAnswers : List String
deriving DecidableEq, Inhabited

def questionDiagramProperties (rng amb : DrawSource) (seed : ℤ) :
    Question × DrawSource :=
  let (ptype, rng1) := randomChoice rng ALL_PORTRAIT_TYPES
  let info := PORTRAIT_INFO ptype
  let propertyQuestions : List PropQuestion :=
    [⟨"What are the eigenvalues of the system shown in the phase portrait below?",
      capitalizeFirst info.eigenvalues,
      (ALL_PORTRAIT_TYPES.filter fun t => t ≠ ptype).map fun t =>
        capitalizeFirst (PORTRAIT_INFO t).eigenvalues⟩,
     ⟨"What is the stability of the equilibrium shown below?",
      capitalizeFirst info.stability,
      ["Asymptotically stable", "Stable (but not asymptotically)",
       "Unstable"].filter fun st => ¬ st.toLower = info.stability.toLower⟩]
  let (propQ, rng2) := randomChoice rng1 propertyQuestions
  let (shuffled, rng3) :=
    shuffle rng2 ([propQ.correctAnswer] ++ propQ.wrongAnswers.take 3)
  let options := shuffled.take 4
  let (options, _) :=
    if propQ.correctAnswer ∈ options then (options, rng3)
    else shuffle rng3 (options.set 0 propQ.correctAnswer)
  let correctIndex := jsIndexOf options propQ.correctAnswer
  let (id, amb1) := generateId amb
  (.multipleChoice
    { id := id, type := .multiple_choice, topic := .phase_portraits,
      difficulty := .moderate,
      prompt := propQ.question,
      explanation := "This is a **" ++ PORTRAIT_NAMES ptype ++
        "**. It has eigenvalues that are " ++ info.eigenvalues ++
        ", making it " ++ info.stability ++ ".",
      seed := some seed,
      diagram := some ⟨"phase_portrait", some ptype, none⟩ }
    options correctIndex, amb1)

/-- `questionIdentifyFromDescription` — note the answer-key fallback: when
the shuffled-and-sliced option list misses the correct name, the source
keeps that list and sets `correctIndex` to 0 instead of inserting the
correct answer (its sibling variants overwrite `options[0]`). -/
def questionIdentifyFromDescription (rng amb : DrawSource) (seed : ℤ) :
    Question × DrawSource :=
  let (ptype, rng1) := randomChoice rng ALL_PORTRAIT_TYPES
  let info := PORTRAIT_INFO ptype
  let (options, _) := shuffle rng1 portraitNamesValues
  let correctAnswer := PORTRAIT_NAMES ptype
  let (id, amb1) := generateId amb
  (.multipleChoice
    { id := id, type := .multiple_choice, topic := .phase_portraits,
      difficulty := .light,
      prompt := "Which type of equilibrium has the following property: \"" ++
        info.description ++ "\"?",
      explanation := info.description ++ " This is characteristic of a **" ++
        PORTRAIT_NAMES ptype ++ "**, which has " ++ info.eigenvalues ++
        " eigenvalues.",
      seed := some seed,
      diagram := none }
    (options.take 4)
    (if 0 ≤ jsIndexOf (options.take 4) correctAnswer
      then jsIndexOf (options.take 4) correctAnswer else 0), amb1)

def questionIdentifyFromEigenvalues (rng amb : DrawSource) (seed : ℤ) :
    Question × DrawSource :=
  let (ptype, rng1) := randomChoice rng ALL_PORTRAIT_TYPES
  let info := PORTRAIT_INFO ptype
  let (shuffled, rng2) := shuffle rng1 portraitNamesValues
  let options := shuffled.take 4
  let correctAnswer := PORTRAIT_NAMES ptype
  let options := if correctAnswer ∈ options then options
    else options.set 0 correctAnswer
  let (finalOptions, _) := shuffle rng2 options
  let correctIndex := jsIndexOf finalOptions correctAnswer
  let (id, amb1) := generateId amb
  (.multipleChoice
    { id := id, type := .multiple_choice,
      topic := .equilibrium_classification,
      difficulty := .moderate,
      prompt := "If a 2D linear system has eigenvalues that are " ++
        info.eigenvalues ++ ", what type of equilibrium is the origin?",
      explanation := "Eigenvalues that are " ++ info.eigenvalues ++
        " produce a **" ++ PORTRAIT_NAMES ptype ++ "**. " ++
        info.description ++ ".",
      seed := some seed,
      diagram := none }
    finalOptions correctIndex, amb1)

def questionIdentifyStability (rng amb : DrawSource) (seed : ℤ) :
    Question × DrawSource :=
  let (ptype, _) := randomChoice rng ALL_PORTRAIT_TYPES
  let info := PORTRAIT_INFO ptype
  let options := ["Asymptotically stable",
    "Stable but not asymptotically stable", "Unstable",
    "Cannot be determined"]
  let correctIndex : ℤ :=
    if info.stability = "asymptotically stable" then 0
    else if info.stability = "stable (but not asymptotically)" then 1
    else 2
  let (id, amb1) := generateId amb
  (.multipleChoice
    { id := id, type := .multiple_choice,
      topic := .equilibrium_classification,
      difficulty := .light,
      prompt := "What is the stability of a **" ++ PORTRAIT_NAMES ptype ++
        "**?",
      explanation := "A " ++ PORTRAIT_NAMES ptype ++
        " has eigenvalues that are " ++ info.eigenvalues ++ ", making it **" ++
        info.stability ++ "**.",
      seed := some seed,
      diagram := none }
    options correctIndex, amb1)

structure TraceDetScenario where
  tr : String
  det : String
  disc : String
  answer : String
deriving DecidableEq, Inhabited

def traceDetScenarios : List TraceDetScenario :=
  [⟨"tr(A) < 0", "det(A) > 0", "D > 0", "Stable Node"⟩,
   ⟨"tr(A) > 0", "det(A) > 0", "D > 0", "Unstable Node"⟩,
   ⟨"any", "det(A) < 0", "N/A", "Saddle"⟩,
   ⟨"tr(A) < 0", "det(A) > 0", "D < 0", "Stable Spiral (Focus)"⟩,
   ⟨"tr(A) > 0", "det(A) > 0", "D < 0", "Unstable Spiral (Focus)"⟩,
   ⟨"tr(A) = 0", "det(A) > 0", "D < 0", "Center"⟩]

def questionIdentifyFromTraceAndDet (rng amb : DrawSource) (seed : ℤ) :
    Question × DrawSource :=
  let (scenario, rng1) := randomChoice rng traceDetScenarios
  let conditions :=
    if scenario.det = "det(A) < 0" then "$\\det(A) < 0$"
    else if scenario.tr = "tr(A) = 0" then
      "$\\text\x7btr\x7d(A) = 0$ and $\\det(A) > 0$"
    else "$\\text\x7btr\x7d(A) " ++
      (if scenario.tr.contains '<' then "<" else ">") ++
      " 0$, $\\det(A) > 0$, and $\\Delta " ++
      (if scenario.disc.contains '>' then ">" else "<") ++ " 0$"
  let (shuffled, rng2) := shuffle rng1 ["Stable Node", "Unstable Node",
    "Saddle", "Stable Spiral (Focus)", "Unstable Spiral (Focus)", "Center"]
  let options := shuffled.take 4
  let options := if scenario.answer ∈ options then options
    else options.set 0 scenario.answer
  let (finalOptions, _) := shuffle rng2 options
  let correctIndex := jsIndexOf finalOptions scenario.answer
  let (id, amb1) := generateId amb
  (.multipleChoice
    { id := id, type := .multiple_choice, topic := .linear_systems_2d,
      difficulty := .moderate,
      prompt := "For a 2D linear system $\\mathbf\x7bx\x7d' = A\\mathbf\x7bx\x7d$ with " ++
        conditions ++ ", the origin is a:",
      explanation := "The trace-determinant conditions " ++ conditions ++
        " correspond to a **" ++ scenario.answer ++ "**.",
      seed := some seed,
      diagram := none }
    finalOptions correctIndex, amb1)

structure PropertyQ where
  question : String
  answer : String
  explanation : String
deriving DecidableEq, Inhabited

def whichHasPropertyList : List PropertyQ :=
  [⟨"Which equilibrium type has $\\det(A) < 0$?", "Saddle",
    "A saddle has eigenvalues of opposite signs, so $\\det(A) = \\lambda_1 \\lambda_2 < 0$."⟩,
   ⟨"Which equilibrium type has $\\text\x7btr\x7d(A) = 0$ with $\\det(A) > 0$?",
    "Center",
    "A center has purely imaginary eigenvalues $\\pm i\\beta$, giving $\\text\x7btr\x7d(A) = 0$ and $\\det(A) = \\beta^2 > 0$."⟩,
   ⟨"Which equilibrium type has complex eigenvalues with negative real part?",
    "Stable Spiral (Focus)",
    "Complex eigenvalues with negative real part cause trajectories to spiral inward."⟩,
   ⟨"Which equilibrium type is stable but NOT asymptotically stable?",
    "Center",
    "A center has closed orbits, so trajectories stay nearby (stable) but don't approach the origin (not asymptotically stable)."⟩,
   ⟨"Which equilibrium type has all trajectories approaching the origin along straight lines?",
    "Stable Node",
    "A stable node has real negative eigenvalues, so trajectories follow the eigenvector directions toward the origin."⟩]

def questionWhichHasProperty (rng amb : DrawSource) (seed : ℤ) :
    Question × DrawSource :=
  let (prop, rng1) := randomChoice rng whichHasPropertyList
  let (shuffled, rng2) := shuffle rng1 ["Stable Node", "Unstable Node",
    "Saddle", "Stable Spiral (Focus)", "Unstable Spiral (Focus)", "Center"]
  let options := shuffled.take 4
  let options := if prop.answer ∈ options then options
    else options.set 0 prop.answer
  let (finalOptions, _) := shuffle rng2 options
  let correctIndex := jsIndexOf finalOptions prop.answer
  let (id, amb1) := generateId amb
  (.multipleChoice
    { id := id, type := .multiple_choice,
      topic := .equilibrium_classification,
      difficulty := .moderate,
      prompt := prop.question,
      explanation := prop.explanation,
      seed := some seed,
      diagram := none }
    finalOptions correctIndex, amb1)

/-- `PhasePortraitGenerator.generate(config)`. -/
def phasePortraitGenerate (config : GeneratorConfig) (amb : DrawSource) :
    Question × DrawSource :=
  let (seed, amb1) : ℤ × DrawSource :=
    match config.seed with
    | some sd => (sd, amb)
    | none => generateSeed amb
  let rng := createRng seed
  let (variant, rng1) := randomChoice rng ppVariants
  match variant with
  | .identifyFromDiagram => questionIdentifyFromDiagram rng1 amb1 seed
  | .identifyFromDescription => questionIdentifyFromDescription rng1 amb1 seed
  | .identifyFromEigenvalues => questionIdentifyFromEigenvalues rng1 amb1 seed
  | .identifyStability => questionIdentifyStability rng1 amb1 seed
  | .identifyFromTraceAndDet => questionIdentifyFromTraceAndDet rng1 amb1 seed
  | .whichHasProperty => questionWhichHasProperty rng1 amb1 seed
  | .diagramProperties => questionDiagramProperties rng1 amb1 seed

/-- Observer: the prompt of a question. -/
def questionPrompt : Question → String
  | .trueFalse b _ => b.prompt
  | .multipleChoice b _ _ => b.prompt
  | .matching b _ _ _ => b.prompt
  | .classification b _ _ _ => b.prompt

/-- Observer: the explanation of a question. -/
def questionExplanation : Question → String
  | .trueFalse b _ => b.explanation
  | .multipleChoice b _ _ => b.explanation
  | .matching b _ _ _ => b.explanation
  | .classification b _ _ _ => b.explanation

/-- Observer: the options of a multiple-choice question. -/
def questionOptions : Question → List String
  | .multipleChoice _ o _ => o
  | _ => []

/-- Observer: the answer index of a multiple-choice question. -/
def questionCorrectIndex : Question → ℤ
  | .multipleChoice _ _ i => i
  | _ => -1

/-- The question produced by `PhasePortraitGenerator.generate` for
`{topic: PHASE_PORTRAITS, difficulty: LIGHT, type: MULTIPLE_CHOICE,
seed: 0}` (the ambient `Math.random` source only mints the id). -/
def c4FailingQuestion : Question :=
  (phasePortraitGenerate ⟨.phase_portraits, .light, .multiple_choice, some 0⟩
    ⟨fun _ => 0, 0⟩).1

/-- C4 (code bug).  At seed 0 the phase-portrait generator picks the
`questionIdentifyFromDescription` variant for the stable node: the prompt
asks which equilibrium "approaches the origin along straight lines" and the
explanation names **Stable Node** as the answer, yet the emitted options do
not contain "Stable Node" — the shuffle left it outside the first four and
the variant's fallback sets `correctIndex` to 0 instead of inserting the
correct answer the way every sibling variant does.  The answer key is
therefore not self-consistent: `options[correctIndex]` is
"Unstable Spiral (Focus)". -/
theorem phasePortrait_missing_answer :
    questionPrompt c4FailingQuestion =
      "Which type of equilibrium has the following property: \"Trajectories approach the origin along straight lines\"?" ∧
    questionExplanation c4FailingQuestion =
      "Trajectories approach the origin along straight lines This is characteristic of a **Stable Node**, which has real, distinct, both negative eigenvalues." ∧
    questionOptions c4FailingQuestion =
      ["Unstable Spiral (Focus)", "Saddle", "Stable Spiral (Focus)",
       "Center"] ∧
    questionCorrectIndex c4FailingQuestion = 0 ∧
    "Stable Node" ∉ questionOptions c4FailingQuestion := by
  refine ⟨?_, ?_, ?_, ?_, ?_⟩
  · with_unfolding_all rfl
  · with_unfolding_all rfl
  · with_unfolding_all rfl
  · with_unfolding_all rfl
  · rw [(by with_unfolding_all rfl : questionOptions c4FailingQuestion =
      ["Unstable Spiral (Focus)", "Saddle", "Stable Spiral (Focus)",
       "Center"])]
    decide

/-! ## The bifurcation generator (`src/generators/templates/bifurcations.ts`) -/

/-- A bifurcation template record.  The `latex` closure renders the
concrete-parameter form; its `p.r` parameter is the integer drawn as
`params.r`. -/
structure BifurcationTemplate where
  type : BifurcationDiagramType
  latex : ℤ → String
  bifurcationValue : ℤ → ℚ
  description : String
deriving Inhabited

def TEMPLATES : List BifurcationTemplate :=
  [⟨.saddle_node,
    fun r => "x' = " ++ (if 0 ≤ r then "" else "-") ++ toString |r| ++ " + x^2",
    fun _ => 0, "saddle-node bifurcation"⟩,
   ⟨.saddle_node,
    fun r => "x' = " ++ (if 0 ≤ r then "" else "-") ++ toString |r| ++ " - x^2",
    fun _ => 0, "saddle-node bifurcation"⟩,
   ⟨.transcritical,
    fun r => "x' = " ++
      (if r = 1 then "" else if r = -1 then "-" else toString r) ++ "rx - x^2",
    fun _ => 0, "transcritical bifurcation"⟩,
   ⟨.pitchfork_super,
    fun r => "x' = " ++
      (if r = 1 then "" else if r = -1 then "-" else toString r) ++ "rx - x^3",
    fun _ => 0, "supercritical pitchfork bifurcation"⟩,
   ⟨.pitchfork_sub,
    fun r => "x' = " ++
      (if r = 1 then "" else if r = -1 then "-" else toString r) ++ "rx + x^3",
    fun _ => 0, "subcritical pitchfork bifurcation"⟩]

def getTemplatesForTopic (topic : Topic) : List BifurcationTemplate :=
  match topic with
  | .bifurcation_saddle_node => TEMPLATES.filter fun t => t.type = .saddle_node
  | .bifurcation_transcritical =>
    TEMPLATES.filter fun t => t.type = .transcritical
  | .bifurcation_pitchfork =>
    TEMPLATES.filter fun t =>
      t.type = .pitchfork_super ∨ t.type = .pitchfork_sub
  | _ => TEMPLATES

def getGenericForm : BifurcationDiagramType → String
  | .saddle_node => "x' = r + x^2"
  | .transcritical => "x' = rx - x^2"
  | .pitchfork_super => "x' = rx - x^3"
  | .pitchfork_sub => "x' = rx + x^3"

def getTypeName : BifurcationDiagramType → String
  | .saddle_node => "Saddle-node"
  | .transcritical => "Transcritical"
  | .pitchfork_super => "Supercritical pitchfork"
  | .pitchfork_sub => "Subcritical pitchfork"

def getExplanation : BifurcationDiagramType → String
  | .saddle_node =>
    "In a saddle-node bifurcation, a stable and unstable equilibrium collide and annihilate (or appear) as the parameter crosses the bifurcation value. The normal form is $x' = r \\pm x^2$."
  | .transcritical =>
    "In a transcritical bifurcation, two equilibria exchange stability as they pass through each other. The normal form is $x' = rx - x^2$. The total number of equilibria remains constant."
  | .pitchfork_super =>
    "In a supercritical pitchfork, the origin loses stability at $r=0$ and two new stable equilibria emerge. The normal form is $x' = rx - x^3$. Requires odd symmetry."
  | .pitchfork_sub =>
    "In a subcritical pitchfork, unstable equilibria exist for $r<0$ and collide with the origin at $r=0$, making it unstable for $r>0$. The normal form is $x' = rx + x^3$."

def getStabilityExplanation : BifurcationDiagramType → String
  | .saddle_node =>
    "For $r < 0$: two equilibria exist (one stable, one unstable). At $r = 0$: they collide. For $r > 0$: no equilibria exist."
  | .transcritical =>
    "The equilibrium at $x=0$ changes from stable ($r<0$) to unstable ($r>0$), while the equilibrium at $x=r$ does the opposite."
  | .pitchfork_super =>
    "The origin is stable for $r<0$ and becomes unstable for $r>0$. Two new stable equilibria at $x = \\pm\\sqrt\x7br\x7d$ appear for $r>0$."
  | .pitchfork_sub =>
    "For $r<0$: origin is stable, two unstable equilibria exist at $x = \\pm\\sqrt\x7b-r\x7d$. At $r=0$: they collide with origin. For $r>0$: origin is unstable."

/-- `${q}` for a rational that is an integer in every reached case. -/
def jsNumToString (q : ℚ) : String :=
  if q.den = 1 then toString q.num else toString q.num ++ "/" ++ toString q.den

/-- The variant table of `BifurcationGenerator.generate`, in array order. -/
inductive BifVariant where
  | identifyType
  | bifurcationValue
  | equilibriaCount
  | stabilityChange
  | identifyFromDiagram
  | diagramToEquation
deriving DecidableEq, Inhabited

def bifVariants : List BifVariant :=
  [.identifyType, .bifurcationValue, .equilibriaCount, .stabilityChange,
   .identifyFromDiagram, .diagramToEquation]

def bifQuestionIdentifyType (rng amb : DrawSource) (topic : Topic)
    (seed : ℤ) : Question × DrawSource :=
  let (template, rng1) := randomChoice rng TEMPLATES
  let (_, _) := randomChoice rng1 [(-2 : ℤ), -1, 1, 2]
  let systemLatex := getGenericForm template.type
  let options := ["Saddle-node", "Transcritical", "Supercritical pitchfork",
    "Subcritical pitchfork"]
  let correctAnswer := getTypeName template.type
  let correctIndex := jsIndexOf options correctAnswer
  let (id, amb1) := generateId amb
  (.multipleChoice
    { id := id, type := .multiple_choice, topic := topic,
      difficulty := .moderate,
      prompt := "Identify the bifurcation type for the system:\n$$" ++
        systemLatex ++ "$$",
      explanation := getExplanation template.type,
      seed := some seed, diagram := none }
    options correctIndex, amb1)

def bifQuestionBifurcationValue (rng amb : DrawSource) (topic : Topic)
    (seed : ℤ) : Question × DrawSource :=
  let templates := getTemplatesForTopic topic
  let (template, rng1) := randomChoice rng templates
  let systemLatex := getGenericForm template.type
  let bifValue := template.bifurcationValue 0
  let (options, _) := shuffle rng1
    ["$r = " ++ jsNumToString bifValue ++ "$",
     "$r = " ++ jsNumToString (bifValue + 1) ++ "$",
     "$r = " ++ jsNumToString (bifValue - 1) ++ "$",
     "$r = " ++ jsNumToString (bifValue + 2) ++ "$"]
  let correctIndex := jsIndexOf options ("$r = " ++ jsNumToString bifValue ++ "$")
  let (id, amb1) := generateId amb
  (.multipleChoice
    { id := id, type := .multiple_choice, topic := topic,
      difficulty := .light,
      prompt := "At what value of $r$ does the bifurcation occur in the system:\n$$" ++
        systemLatex ++ "$$",
      explanation := "The bifurcation occurs when the equilibrium becomes non-hyperbolic, i.e., when the derivative at the equilibrium is zero. For this system, this happens at $r = " ++
        jsNumToString bifValue ++ "$.",
      seed := some seed, diagram := none }
    options correctIndex, amb1)

def bifQuestionEquilibriaCount (rng amb : DrawSource) (topic : Topic)
    (seed : ℤ) : Question × DrawSource :=
  let templates := getTemplatesForTopic topic
  let (template, rng1) := randomChoice rng templates
  let systemLatex := getGenericForm template.type
  let (rSign, _) := randomChoice rng1 ["positive", "negative"]
  let correctCount : ℕ :=
    match template.type with
    | .saddle_node => if rSign = "positive" then 0 else 2
    | .transcritical => 2
    | .pitchfork_super => if rSign = "positive" then 3 else 1
    | .pitchfork_sub => if rSign = "positive" then 1 else 3
  let options := ["0", "1", "2", "3"]
  let correctIndex := jsIndexOf options (toString correctCount)
  let (id, amb1) := generateId amb
  (.multipleChoice
    { id := id, type := .multiple_choice, topic := topic,
      difficulty := .moderate,
      prompt := "For the system $" ++ systemLatex ++
        "$, how many equilibrium points exist when $r " ++
        (if rSign = "positive" then "> 0" else "< 0") ++ "$?",
      explanation := "For " ++ rSign ++ " $r$, solving $f(x, r) = 0$ gives " ++
        toString correctCount ++ " equilibri" ++
        (if correctCount = 1 then "um" else "a") ++ ".",
      seed := some seed, diagram := none }
    options correctIndex, amb1)

def bifQuestionStabilityChange (rng amb : DrawSource) (topic : Topic)
    (seed : ℤ) : Question × DrawSource :=
  let templates := getTemplatesForTopic topic
  let (template, _) := randomChoice rng templates
  let systemLatex := getGenericForm template.type
  let options := ["The equilibrium changes from stable to unstable",
    "The equilibrium changes from unstable to stable",
    "Two equilibria exchange stability",
    "The equilibrium remains stable throughout"]
  let correctIndex : ℤ :=
    match template.type with
    | .saddle_node => 0
    | .transcritical => 2
    | .pitchfork_super => 0
    | .pitchfork_sub => 1
  let (id, amb1) := generateId amb
  (.multipleChoice
    { id := id, type := .multiple_choice, topic := topic,
      difficulty := .moderate,
      prompt := "What happens to the stability of equilibria as $r$ increases through 0 in the system:\n$$" ++
        systemLatex ++ "$$",
      explanation := getStabilityExplanation template.type,
      seed := some seed, diagram := none }
    options correctIndex, amb1)

def allBifTypes : List BifurcationDiagramType :=
  [.saddle_node, .transcritical, .pitchfork_super, .pitchfork_sub]

def bifQuestionIdentifyFromDiagram (rng amb : DrawSource) (topic : Topic)
    (seed : ℤ) : Question × DrawSource :=
  let (btype, _) := randomChoice rng allBifTypes
  let options := ["Saddle-node", "Transcritical", "Supercritical pitchfork",
    "Subcritical pitchfork"]
  let correctAnswer := getTypeName btype
  let correctIndex := jsIndexOf options correctAnswer
  let (id, amb1) := generateId amb
  (.multipleChoice
    { id := id, type := .multiple_choice, topic := topic,
      difficulty := .light,
      prompt := "Identify the type of bifurcation shown in the diagram below:",
      explanation := getExplanation btype,
      seed := some seed,
      diagram := some ⟨"bifurcation", none, some btype⟩ }
    options correctIndex, amb1)

/-- The `equations` record of `questionDiagramToEquation`; `Object.values`
follows key insertion order. -/
def bifEquations : BifurcationDiagramType → String
  | .saddle_node => "$x' = r + x^2$"
  | .transcritical => "$x' = rx - x^2$"
  | .pitchfork_super => "$x' = rx - x^3$"
  | .pitchfork_sub => "$x' = rx + x^3$"

def bifQuestionDiagramToEquation (rng amb : DrawSource) (topic : Topic)
    (seed : ℤ) : Question × DrawSource :=
  let (btype, rng1) := randomChoice rng allBifTypes
  let correctAnswer := bifEquations btype
  let (options, _) := shuffle rng1 (allBifTypes.map bifEquations)
  let correctIndex := jsIndexOf options correctAnswer
  let (id, amb1) := generateId amb
  (.multipleChoice
    { id := id, type := .multiple_choice, topic := topic,
      difficulty := .moderate,
      prompt := "Which equation produces the bifurcation diagram shown below?",
      explanation := "This is a " ++ getTypeName btype ++ " bifurcation. " ++
        getExplanation btype,
      seed := some seed,
      diagram := some ⟨"bifurcation", none, some btype⟩ }
    options correctIndex, amb1)

/-- A statement of the bifurcation true/false bank. -/
structure BifStatement where
  prompt : String
  correct : Bool
  topic : Topic
deriving DecidableEq, Inhabited

def bifStatements : List BifStatement :=
  [⟨"In a saddle-node bifurcation, two equilibria collide and annihilate.",
    true, .bifurcation_saddle_node⟩,
   ⟨"A transcritical bifurcation changes the total number of equilibria.",
    false, .bifurcation_transcritical⟩,
   ⟨"In a supercritical pitchfork, the new equilibria that appear are stable.",
    true, .bifurcation_pitchfork⟩,
   ⟨"A pitchfork bifurcation requires symmetry in the system.",
    true, .bifurcation_pitchfork⟩,
   ⟨"At a transcritical bifurcation, two equilibria exchange stability.",
    true, .bifurcation_transcritical⟩,
   ⟨"In a subcritical pitchfork, the bifurcating equilibria are unstable.",
    true, .bifurcation_pitchfork⟩]

def bifGenerateTrueFalse (rng amb : DrawSource) (topic : Topic) (seed : ℤ) :
    Question × DrawSource :=
  let relevant := bifStatements.filter fun st =>
    st.topic = topic ∨ topic = .bifurcation_pitchfork
  let (statement, _) :=
    randomChoice rng (if relevant.length > 0 then relevant else bifStatements)
  let (id, amb1) := generateId amb
  (.trueFalse
    { id := id, type := .true_false, topic := statement.topic,
      difficulty := .conceptual,
      prompt := statement.prompt,
      explanation := "This statement is " ++
        (if statement.correct then "TRUE" else "FALSE") ++ ". " ++
        getExplanation
          (if statement.topic = .bifurcation_saddle_node then .saddle_node
           else if statement.topic = .bifurcation_transcritical then
             .transcritical
           else .pitchfork_super),
      seed := some seed, diagram := none }
    statement.correct, amb1)

/-- `BifurcationGenerator.generate(config)`. -/
def bifurcationGenerate (config : GeneratorConfig) (amb : DrawSource) :
    Question × DrawSource :=
  let (seed, amb1) : ℤ × DrawSource :=
    match config.seed with
    | some sd => (sd, amb)
    | none => generateSeed amb
  let rng := createRng seed
  if config.type = .true_false then bifGenerateTrueFalse rng amb1 config.topic seed
  else
    let (variant, rng1) := randomChoice rng bifVariants
    match variant with
    | .identifyType => bifQuestionIdentifyType rng1 amb1 config.topic seed
    | .bifurcationValue => bifQuestionBifurcationValue rng1 amb1 config.topic seed
    | .equilibriaCount => bifQuestionEquilibriaCount rng1 amb1 config.topic seed
    | .stabilityChange => bifQuestionStabilityChange rng1 amb1 config.topic seed
    | .identifyFromDiagram =>
      bifQuestionIdentifyFromDiagram rng1 amb1 config.topic seed
    | .diagramToEquation =>
      bifQuestionDiagramToEquation rng1 amb1 config.topic seed

/-! ## The selection/dispatch layer (`src/generators/index.ts`) -/

/-- Observer: a question's id. -/
def questionId : Question → String
  | .trueFalse b _ => b.id
  | .multipleChoice b _ _ => b.id
  | .matching b _ _ _ => b.id
  | .classification b _ _ _ => b.id

/-- Observer: a question's topic. -/
def questionTopic : Question → Topic
  | .trueFalse b _ => b.topic
  | .multipleChoice b _ _ => b.topic
  | .matching b _ _ _ => b.topic
  | .classification b _ _ _ => b.topic

/-- Observer: a question's type tag. -/
def questionQType : Question → QuestionType
  | .trueFalse b _ => b.type
  | .multipleChoice b _ _ => b.type
  | .matching b _ _ _ => b.type
  | .classification b _ _ _ => b.type

/-- Observer: a question's difficulty. -/
def questionDifficulty : Question → Difficulty
  | .trueFalse b _ => b.difficulty
  | .multipleChoice b _ _ => b.difficulty
  | .matching b _ _ _ => b.difficulty
  | .classification b _ _ _ => b.difficulty

instance : Inhabited BaseQuestion :=
  ⟨⟨"", .true_false, .stability_1d, .conceptual, "", "", none, none⟩⟩

instance : Inhabited Question := ⟨.trueFalse default true⟩

/-- Modelled from the spec: the static true/false pool
(`src/generators/pools/trueFalse.ts` is not among the provided source
files).  Per the spec it is a fixed array of pre-authored TRUE_FALSE
questions of CONCEPTUAL difficulty spanning the topics; five representative
entries are modelled.  Every theorem below depends only on the pool being a
fixed list with at least one STABILITY_1D entry. -/
def trueFalsePool : List Question :=
  [.trueFalse ⟨"pool-0", .true_false, .stability_1d, .conceptual,
      "An equilibrium of a 1D system with negative derivative is asymptotically stable.",
      "True by linear stability analysis.", none, none⟩ true,
   .trueFalse ⟨"pool-1", .true_false, .linear_systems_2d, .conceptual,
      "A saddle point of a 2D linear system is stable.",
      "False: saddles are always unstable.", none, none⟩ false,
   .trueFalse ⟨"pool-2", .true_false, .bifurcation_pitchfork, .conceptual,
      "A pitchfork bifurcation requires symmetry in the system.",
      "True: pitchforks arise in systems with odd symmetry.", none, none⟩ true,
   .trueFalse ⟨"pool-3", .true_false, .phase_portraits, .conceptual,
      "A center is surrounded by closed orbits.",
      "True: purely imaginary eigenvalues give closed orbits.", none, none⟩
      true,
   .trueFalse ⟨"pool-4", .true_false, .lyapunov_functions, .conceptual,
      "A Lyapunov function must increase along trajectories.",
      "False: it must be non-increasing along trajectories.", none, none⟩
      false]

/-- One entry of the generator registry: the class name, the declared
capability sets, and the `generate` method. -/
structure GeneratorDef where
  name : String
  topics : List Topic
  types : List QuestionType
  difficulties : List Difficulty
  generate : GeneratorConfig → DrawSource → Question × DrawSource

instance : Inhabited GeneratorDef :=
  ⟨⟨"", [], [], [], fun _ amb => (default, amb)⟩⟩

/-- Placeholder body for the generators whose `generate` implementation is
not exercised by any theorem in this file.  Their capability metadata
(`topics`/`types`/`difficulties`) is transcribed faithfully from each
template file; on every input any theorem below evaluates, the capability
filters exclude these generators before `generate` could be invoked, which
the concrete kernel computations certify.  The body returns a fixed
question. -/
def unmodeledGenerate (name : String) :
    GeneratorConfig → DrawSource → Question × DrawSource :=
  fun config amb =>
    (.trueFalse ⟨name, .true_false, config.topic, config.difficulty,
      "", "", config.seed, none⟩ true, amb)

/-- The generator registry, in source order. -/
def generators : List GeneratorDef :=
  [⟨"Stability1DGenerator", [.stability_1d],
    [.multiple_choice, .true_false], [.light, .moderate],
    unmodeledGenerate "Stability1DGenerator"⟩,
   ⟨"LinearSystems2DGenerator",
    [.linear_systems_2d, .equilibrium_classification],
    [.multiple_choice], [.light, .moderate],
    unmodeledGenerate "LinearSystems2DGenerator"⟩,
   ⟨"BifurcationGenerator",
    [.bifurcation_saddle_node, .bifurcation_transcritical,
     .bifurcation_pitchfork],
    [.multiple_choice, .true_false], [.light, .moderate],
    bifurcationGenerate⟩,
   ⟨"PhasePortraitGenerator",
    [.phase_portraits, .equilibrium_classification, .linear_systems_2d],
    [.multiple_choice], [.light, .moderate], phasePortraitGenerate⟩,
   ⟨"CenterManifoldGenerator", [.center_manifold],
    [.multiple_choice, .true_false], [.moderate, .heavy],
    unmodeledGenerate "CenterManifoldGenerator"⟩,
   ⟨"MatchingDiagramsGenerator",
    [.phase_portraits, .equilibrium_classification, .bifurcation_saddle_node,
     .bifurcation_transcritical, .bifurcation_pitchfork],
    [.matching], [.light, .moderate],
    unmodeledGenerate "MatchingDiagramsGenerator"⟩,
   ⟨"HopfBifurcationGenerator", [.bifurcation_hopf],
    [.multiple_choice, .true_false], [.moderate, .heavy],
    unmodeledGenerate "HopfBifurcationGenerator"⟩,
   ⟨"LyapunovGenerator", [.lyapunov_functions],
    [.multiple_choice, .true_false], [.moderate, .heavy],
    unmodeledGenerate "LyapunovGenerator"⟩,
   ⟨"IndexTheoryGenerator", [.topological_index],
    [.multiple_choice, .true_false], [.moderate, .heavy],
    unmodeledGenerate "IndexTheoryGenerator"⟩,
   ⟨"HamiltonianGenerator", [.hamiltonian_systems],
    [.multiple_choice, .true_false], [.moderate, .heavy],
    unmodeledGenerate "HamiltonianGenerator"⟩,
   ⟨"InvariantManifoldsGenerator", [.invariant_manifolds],
    [.multiple_choice], [.light, .moderate],
    unmodeledGenerate "InvariantManifoldsGenerator"⟩]

/-- The module-level mutable dispatch state: used question ids, used pool
indices, and the bounded recency list of generator class names. -/
structure DispatchState where
  usedQuestionIds : List String
  usedPoolIndices : List ℕ
  recentlyUsedGenerators : List String
deriving DecidableEq

/-- `GENERATOR_COOLDOWN`: questions before a generator returns to full
weight. -/
def GENERATOR_COOLDOWN : ℕ := 3

/-- `resetUsedQuestions()`: the freshly reset dispatch state. -/
def resetUsedQuestions : DispatchState := ⟨[], [], []⟩

/-- The weight a generator receives in `selectGenerator`: 1.0 off the
recency window, otherwise `0.2 + (0.6 * recentIndex) / GENERATOR_COOLDOWN`. -/
def generatorWeight (recency : List String) (name : String) : ℚ :=
  let recentIndex := jsIndexOf recency name
  if recentIndex = -1 then 1
  else 1 / 5 + ((3 / 5) * (recentIndex : ℚ)) / (GENERATOR_COOLDOWN : ℚ)

/-- The recency-list update performed when a generator is picked:
remove it, unshift it, and pop beyond the cooldown length. -/
def pushRecency (recency : List String) (name : String) : List String :=
  let l := name :: (recency.filter fun n => ¬ n = name)
  if GENERATOR_COOLDOWN < l.length then l.dropLast else l

/-- The subtract-and-test walk of `selectGenerator`'s weighted pick. -/
def selectLoop (recency : List String) :
    List (GeneratorDef × ℚ) → ℚ → Option (GeneratorDef × List String)
  | [], _ => none
  | (g, w) :: rest, random =>
    if random - w ≤ 0 then some (g, pushRecency recency g.name)
    else selectLoop recency rest (random - w)

/-- `selectGenerator(rng, available)`: weighted pick against the recency
list; a single candidate is returned outright (no draw, no recency
update). -/
def selectGenerator (rng : DrawSource) (recency : List String)
    (available : List GeneratorDef) :
    GeneratorDef × List String × DrawSource :=
  if available.length ≤ 1 then (available.getD 0 default, recency, rng)
  else
    let weights := available.map fun g => generatorWeight recency g.name
    let totalWeight := weights.foldl (fun a b => a + b) 0
    let (r, rng1) := rng.draw
    match selectLoop recency (available.zip weights) (r * totalWeight) with
    | some (g, recency1) => (g, recency1, rng1)
    | none => (available.getD (available.length - 1) default, recency, rng1)

/-- `findGenerators(config)`: the generators whose declared capability sets
contain the topic, type and difficulty.  (The source takes a `Partial`
config; the dispatch layer always passes all three fields.) -/
def findGenerators (config : GeneratorConfig) : List GeneratorDef :=
  generators.filter fun g =>
    config.topic ∈ g.topics ∧ config.type ∈ g.types ∧
      config.difficulty ∈ g.difficulties

/-- `getPoolQuestions(config)`: not-yet-used pool entries matching the
filter, paired with their pool index. -/
def getPoolQuestions (st : DispatchState) (topic : Topic)
    (difficulty : Difficulty) (qtype : QuestionType) :
    List (Question × ℕ) :=
  (trueFalsePool.enum.map fun p => (p.2, p.1)).filter fun qi =>
    qi.2 ∉ st.usedPoolIndices ∧ questionTopic qi.1 = topic ∧
      questionQType qi.1 = qtype ∧ questionDifficulty qi.1 = difficulty

structure GenerateOptions where
  topics : Option (List Topic)
  difficulties : Option (List Difficulty)
  types : Option (List QuestionType)
  diagramsOnly : Option Bool
  seed : Option ℤ

/-- `options.topics?.length ? options.topics : Object.values(Topic)`. -/
def resolveTopics (options : GenerateOptions) : List Topic :=
  match options.topics with
  | some (t :: ts) => t :: ts
  | _ => allTopics

def resolveDifficulties (options : GenerateOptions) : List Difficulty :=
  match options.difficulties with
  | some (d :: ds) => d :: ds
  | _ => allDifficulties

def resolveTypes (options : GenerateOptions) : List QuestionType :=
  match options.types with
  | some (t :: ts) => t :: ts
  | _ => allQuestionTypes

/-- `options.diagramsOnly ?? false`. -/
def resolveDiagramsOnly (options : GenerateOptions) : Bool :=
  options.diagramsOnly.getD false

/-- The class names of the diagram-producing generators. -/
def diagramGenerators : List String :=
  ["PhasePortraitGenerator", "BifurcationGenerator",
   "MatchingDiagramsGenerator"]

/-- The 10-attempt generator loop of `generateQuestion`, threading the
dispatch state, the per-request seeded RNG and the ambient `Math.random`
source.  (Modelled generators are total, so the source's try/catch around
`generate` has no failing branch to model.) -/
def attemptLoop (topics : List Topic) (difficulties : List Difficulty)
    (types : List QuestionType) (diagramsOnly : Bool) :
    ℕ → DispatchState → DrawSource → DrawSource →
    Option Question × DispatchState × DrawSource × DrawSource
  | 0, st, rng, amb => (none, st, rng, amb)
  | n + 1, st, rng, amb =>
    let (topic, rng1) := randomChoice rng topics
    let (difficulty, rng2) := randomChoice rng1 difficulties
    let (qtype, rng3) := randomChoice rng2 types
    let (aseed, amb1) := generateSeed amb
    let config : GeneratorConfig := ⟨topic, difficulty, qtype, some aseed⟩
    let available := findGenerators config
    let available := if diagramsOnly then
        available.filter fun g => g.name ∈ diagramGenerators
      else available
    if 0 < available.length then
      let (gen, recency1, rng4) :=
        selectGenerator rng3 st.recentlyUsedGenerators available
      let st1 := { st with recentlyUsedGenerators := recency1 }
      let (q, amb2) := gen.generate config amb1
      if questionId q ∈ st1.usedQuestionIds then
        attemptLoop topics difficulties types diagramsOnly n st1 rng4 amb2
      else
        (some q,
         { st1 with usedQuestionIds := st1.usedQuestionIds ++ [questionId q] },
         rng4, amb2)
    else attemptLoop topics difficulties types diagramsOnly n st rng3 amb1

/-- Everything `generateQuestion` does before the pool fallback: seed
resolution, the 30% pool path, and the 10 generator attempts.  Returns the
early result (if any), the updated state, the RNG as left by the loop, and
the ambient source. -/
def prePhase (options : GenerateOptions) (st : DispatchState)
    (amb : DrawSource) :
    Option Question × DispatchState × DrawSource × DrawSource :=
  let (seed, amb0) : ℤ × DrawSource :=
    match options.seed with
    | some sd => (sd, amb)
    | none => generateSeed amb
  let rng := createRng seed
  let topics := resolveTopics options
  let difficulties := resolveDifficulties options
  let types := resolveTypes options
  let diagramsOnly := resolveDiagramsOnly options
  let canUsePool := QuestionType.true_false ∈ types
  let (usePool, rng1) : Bool × DrawSource :=
    if canUsePool ∧ diagramsOnly = false then
      let (r, rng') := rng.draw
      ((if r < 3 / 10 then decide (Difficulty.conceptual ∈ difficulties)
        else false), rng')
    else (false, rng)
  let (poolHit, st1, rng2) : Option Question × DispatchState × DrawSource :=
    if usePool then
      let (ptopic, rngA) := randomChoice rng1 topics
      let availablePool := getPoolQuestions st ptopic .conceptual .true_false
      if 0 < availablePool.length then
        let (selected, rngB) := randomChoice rngA availablePool
        (some selected.1,
         { st with usedPoolIndices := st.usedPoolIndices ++ [selected.2] },
         rngB)
      else (none, st, rngA)
    else (none, st, rng1)
  match poolHit with
  | some q => (some q, st1, rng2, amb0)
  | none => attemptLoop topics difficulties types diagramsOnly 10 st1 rng2 amb0

/-- The pool entries eligible for the final fallback: not yet used and
matching the topic filter. -/
def matchingPool (st : DispatchState) (topics : List Topic) :
    List (Question × ℕ) :=
  (trueFalsePool.enum.map fun p => (p.2, p.1)).filter fun qi =>
    qi.2 ∉ st.usedPoolIndices ∧ questionTopic qi.1 ∈ topics

/-- `generateQuestion(options)` with explicit state and ambient source.
The source's reset-and-retry recursion is fuel-bounded only for Lean's
termination checker; the source can re-enter at most once per pool
exhaustion before the reset empties `usedPoolIndices`. -/
def generateQuestionGo :
    ℕ → GenerateOptions → DispatchState → DrawSource →
    Option Question × DispatchState × DrawSource
  | 0, _, st, amb => (none, st, amb)
  | fuel + 1, options, st, amb =>
    match prePhase options st amb with
    | (some q, st2, _, amb1) => (some q, st2, amb1)
    | (none, st2, rng3, amb1) =>
      if resolveDiagramsOnly options = false ∧
          QuestionType.true_false ∈ resolveTypes options then
        let allAvailablePool := matchingPool st2 (resolveTopics options)
        if 0 < allAvailablePool.length then
          let (selected, _) := randomChoice rng3 allAvailablePool
          (some selected.1,
           { st2 with usedPoolIndices := st2.usedPoolIndices ++ [selected.2] },
           amb1)
        else if (st2.usedPoolIndices.length : ℚ) ≥
            (trueFalsePool.length : ℚ) * (4 / 5) then
          generateQuestionGo fuel options resetUsedQuestions amb1
        else if 0 < trueFalsePool.length then
          let (q, _) := randomChoice rng3 trueFalsePool
          (some q, st2, amb1)
        else (none, st2, amb1)
      else (none, st2, amb1)

/-- `generateQuestion(options)`; fuel 10 is far beyond the reachable
recursion depth of the source. -/
def generateQuestion (options : GenerateOptions) (st : DispatchState)
    (amb : DrawSource) : Option Question × DispatchState × DrawSource :=
  generateQuestionGo 10 options st amb

/-! ## C1, C7, C8: dispatch-layer claims -/

/-- Observer: a question's seed field. -/
def questionSeed : Question → Option ℤ
  | .trueFalse b _ => b.seed
  | .multipleChoice b _ _ => b.seed
  | .matching b _ _ _ => b.seed
  | .classification b _ _ _ => b.seed

/-- Erase the id field (ids are freshly minted and exempt from the
determinism claim). -/
def stripId : Question → Question
  | .trueFalse b a => .trueFalse { b with id := "" } a
  | .multipleChoice b o i => .multipleChoice { b with id := "" } o i
  | .matching b l r m => .matching { b with id := "" } l r m
  | .classification b i c cc => .classification { b with id := "" } i c cc

/-- A constant-zero ambient `Math.random` stream. -/
def ambZero : ℕ → ℚ := fun _ => 0

/-- A constant-one-half ambient `Math.random` stream. -/
def ambHalf : ℕ → ℚ := fun _ => 1 / 2

/-- Fixed filters with a fixed seed for the C1 runs. -/
def c1Options : GenerateOptions :=
  ⟨some [.bifurcation_transcritical], some [.light], some [.multiple_choice],
   some false, some 12345⟩

/-- C1 counterexample.  With identical filters, identical seed 12345 and a
freshly reset dispatch state, two `generateQuestion` calls whose ambient
`Math.random` draws differ return questions that differ beyond the id: the
per-attempt generator seed is minted from `Math.random`, not from the
seeded RNG, and it is stored in the question's `seed` field (and drives all
its content).  The two runs below return questions with `seed` fields 0 and
1073741823. -/
theorem generateQuestion_not_deterministic :
    ¬ (∀ amb1 amb2 : ℕ → ℚ,
        (∀ n, 0 ≤ amb1 n ∧ amb1 n < 1) →
        (∀ n, 0 ≤ amb2 n ∧ amb2 n < 1) →
        Option.map stripId
            (generateQuestion c1Options resetUsedQuestions ⟨amb1, 0⟩).1 =
          Option.map stripId
            (generateQuestion c1Options resetUsedQuestions ⟨amb2, 0⟩).1) := by
  intro h
  have hc := h ambZero ambHalf
    (fun _ => ⟨le_refl 0, by norm_num [ambZero]⟩)
    (fun _ => ⟨by norm_num [ambHalf], by norm_num [ambHalf]⟩)
  have hc2 := congrArg (Option.map questionSeed) hc
  rw [(by with_unfolding_all rfl :
        Option.map questionSeed (Option.map stripId
          (generateQuestion c1Options resetUsedQuestions ⟨ambZero, 0⟩).1) =
        some (some 0)),
      (by with_unfolding_all rfl :
        Option.map questionSeed (Option.map stripId
          (generateQuestion c1Options resetUsedQuestions ⟨ambHalf, 0⟩).1) =
        some (some 1073741823))] at hc2
  exact absurd hc2 (by decide)

/-- C1 amended: dispatch is deterministic once the ambient `Math.random`
stream is fixed as well — two calls with the same filters, the same seed,
the same fresh state and element-for-element identical ambient draws return
identical results (ids included, since ids come from the ambient stream).
With the seed alone, equality up to id fails (see the counterexample): the
per-attempt seeds recorded in `Question.seed` come from `Math.random`. -/
theorem generateQuestion_deterministic_given_ambient
    (options : GenerateOptions) (st : DispatchState) (amb1 amb2 : ℕ → ℚ)
    (k : ℕ) (h : ∀ n, amb1 n = amb2 n) :
    generateQuestion options st ⟨amb1, k⟩ =
      generateQuestion options st ⟨amb2, k⟩ := by
  have he : amb1 = amb2 := funext h
  rw [he]

/-- Witness for the amended C1. -/
theorem generateQuestion_deterministic_given_ambient_witness :
    generateQuestion c1Options resetUsedQuestions ⟨ambZero, 0⟩ =
      generateQuestion c1Options resetUsedQuestions ⟨ambZero, 0⟩ :=
  generateQuestion_deterministic_given_ambient c1Options resetUsedQuestions
    ambZero ambZero 0 (fun _ => rfl)

/-- C7 counterexample.  With the recency window fully occupied by
`["A", "B", "C"]`, the least recently used in-window generator `"C"` (index
2) receives weight `0.2 + 0.6·2/3 = 0.6`, not approximately `0.8`; the ramp
never exceeds 0.6 inside the window of 3. -/
theorem generatorWeight_claim_false :
    generatorWeight ["A", "B", "C"] "C" = 3 / 5 ∧
    ¬ (7 / 10 : ℚ) ≤ generatorWeight ["A", "B", "C"] "C" := by
  have h : generatorWeight ["A", "B", "C"] "C" = 3 / 5 := by
    with_unfolding_all rfl
  exact ⟨h, by rw [h]; norm_num⟩

/-- C7 amended: a generator outside the recency window gets weight 1.0; a
generator at recency index `i` of the window (0 = most recent) gets
`0.2 + 0.6·i/3`, i.e. 0.2, 0.4, 0.6 for the window of size 3 — the ramp
tops out at 0.6 for the least recently used entry, not ≈0.8. -/
theorem generatorWeight_spec (recency : List String) (name : String) :
    (jsIndexOf recency name = -1 → generatorWeight recency name = 1) ∧
    (∀ i : ℤ, jsIndexOf recency name = i → ¬ i = -1 →
      generatorWeight recency name = 1 / 5 + ((3 / 5) * (i : ℚ)) / 3) := by
  constructor
  · intro h
    simp only [generatorWeight]
    rw [h]
    norm_num
  · intro i hi hne
    simp only [generatorWeight]
    rw [hi, if_neg hne]
    norm_num [GENERATOR_COOLDOWN]

/-- Witness for the amended C7 at index 1 of a full window. -/
theorem generatorWeight_spec_witness :
    generatorWeight ["A", "B", "C"] "B" =
      1 / 5 + ((3 / 5) * ((1 : ℤ) : ℚ)) / 3 :=
  (generatorWeight_spec ["A", "B", "C"] "B").2 1
    (by with_unfolding_all rfl) (by decide)

theorem randomChoice_mem {α : Type} [Inhabited α] (s : DrawSource)
    (l : List α) (_h0 : 0 ≤ s.f s.k) (h1 : s.f s.k < 1) (hl : l ≠ []) :
    (randomChoice s l).1 ∈ l := by
  have hlen : 0 < l.length := List.length_pos.mpr hl
  have hfl : ⌊s.f s.k * (l.length : ℚ)⌋ < (l.length : ℤ) := by
    rw [Int.floor_lt]
    have hq : (0 : ℚ) < (l.length : ℚ) := by exact_mod_cast hlen
    push_cast
    nlinarith
  have hidx : (⌊s.f s.k * (l.length : ℚ)⌋).toNat < l.length := by omega
  show l.getD (⌊s.f s.k * (l.length : ℚ)⌋).toNat default ∈ l
  rw [List.getD_eq_getElem l default hidx]
  exact List.getElem_mem hidx

/-- C8 amended.  When all 10 attempts fail (`prePhase` returns `none`),
`diagramsOnly` is false **and TRUE_FALSE is among the allowed types** (the
guard the claim omits), `generateQuestion` behaves exactly as claimed:
it returns a not-yet-used pool question matching the topic filter when one
exists (marking its index used); otherwise, when at least 80% of pool
indices are used, it resets all used-tracking and recurses once; otherwise,
when the pool is non-empty, it returns a pool question bypassing the used
check. -/
theorem generateQuestion_fallback_amended
    (fuel : ℕ) (options : GenerateOptions) (st st2 : DispatchState)
    (amb rng3 amb1 : DrawSource)
    (hpre : prePhase options st amb = (none, st2, rng3, amb1))
    (hdiag : resolveDiagramsOnly options = false)
    (hpool : QuestionType.true_false ∈ resolveTypes options)
    (hr0 : 0 ≤ rng3.f rng3.k) (hr1 : rng3.f rng3.k < 1) :
    (matchingPool st2 (resolveTopics options) ≠ [] →
      ∃ qi ∈ matchingPool st2 (resolveTopics options),
        generateQuestionGo (fuel + 1) options st amb =
          (some qi.1,
           { st2 with usedPoolIndices := st2.usedPoolIndices ++ [qi.2] },
           amb1)) ∧
    (matchingPool st2 (resolveTopics options) = [] →
      (st2.usedPoolIndices.length : ℚ) ≥ (trueFalsePool.length : ℚ) * (4 / 5) →
      generateQuestionGo (fuel + 1) options st amb =
        generateQuestionGo fuel options resetUsedQuestions amb1) ∧
    (matchingPool st2 (resolveTopics options) = [] →
      ¬ (st2.usedPoolIndices.length : ℚ) ≥
          (trueFalsePool.length : ℚ) * (4 / 5) →
      trueFalsePool ≠ [] →
      ∃ q ∈ trueFalsePool,
        generateQuestionGo (fuel + 1) options st amb =
          (some q, st2, amb1)) := by
  refine ⟨?_, ?_, ?_⟩
  · intro hne
    have hlen : 0 < (matchingPool st2 (resolveTopics options)).length :=
      List.length_pos.mpr hne
    refine ⟨(randomChoice rng3 (matchingPool st2 (resolveTopics options))).1,
      randomChoice_mem rng3 _ hr0 hr1 hne, ?_⟩
    simp only [generateQuestionGo, hpre]
    rw [if_pos ⟨hdiag, hpool⟩, if_pos hlen]
  · intro hemp hge
    simp only [generateQuestionGo, hpre]
    rw [if_pos ⟨hdiag, hpool⟩,
      if_neg (by rw [hemp]; decide :
        ¬ 0 < (matchingPool st2 (resolveTopics options)).length),
      if_pos hge]
  · intro hemp hlt hne
    refine ⟨(randomChoice rng3 trueFalsePool).1,
      randomChoice_mem rng3 _ hr0 hr1 hne, ?_⟩
    simp only [generateQuestionGo, hpre]
    rw [if_pos ⟨hdiag, hpool⟩,
      if_neg (by rw [hemp]; decide :
        ¬ 0 < (matchingPool st2 (resolveTopics options)).length),
      if_neg hlt, if_pos (List.length_pos.mpr hne)]

/-- Filters for the C8 counterexample run: STABILITY_1D + CONCEPTUAL +
MULTIPLE_CHOICE (no generator supports this triple, and TRUE_FALSE is not
among the allowed types). -/
def c8Options : GenerateOptions :=
  ⟨some [.stability_1d], some [.conceptual], some [.multiple_choice],
   some false, some 7⟩

/-- C8 counterexample.  All 10 attempts fail, `diagramsOnly` is false, and
an unused pool question matching the topic filter exists — yet
`generateQuestion` returns `null`, because the fallback additionally
requires TRUE_FALSE to be among the allowed types
(`if (!diagramsOnly && canUsePool)`), which the claim omits. -/
theorem generateQuestion_fallback_claim_false :
    (prePhase c8Options resetUsedQuestions ⟨ambZero, 0⟩).1 = none ∧
    resolveDiagramsOnly c8Options = false ∧
    matchingPool (prePhase c8Options resetUsedQuestions ⟨ambZero, 0⟩).2.1
        (resolveTopics c8Options) ≠ [] ∧
    (generateQuestion c8Options resetUsedQuestions ⟨ambZero, 0⟩).1 = none := by
  refine ⟨by with_unfolding_all rfl, by with_unfolding_all rfl, ?_,
    by with_unfolding_all rfl⟩
  have hlen : (matchingPool (prePhase c8Options resetUsedQuestions
      ⟨ambZero, 0⟩).2.1 (resolveTopics c8Options)).length = 1 := by
    with_unfolding_all rfl
  intro hcon
  rw [hcon] at hlen
  exact absurd hlen (by decide)

/-- Filters for the amended-C8 witness run: as `c8Options` but with
TRUE_FALSE allowed (and seed 1, whose first draw exceeds 0.3 so the 30%
pool path is skipped and the attempts run). -/
def c8wOptions : GenerateOptions :=
  ⟨some [.stability_1d], some [.conceptual], some [.true_false],
   some false, some 1⟩

/-- Witness for the amended C8: with TRUE_FALSE allowed, the failed-attempts
run at seed 1 falls back to a matching unused pool question. -/
theorem generateQuestion_fallback_amended_witness :
    ∃ qi ∈ matchingPool ⟨[], [], []⟩ (resolveTopics c8wOptions),
      generateQuestionGo (9 + 1) c8wOptions resetUsedQuestions ⟨ambZero, 0⟩ =
        (some qi.1,
         { (⟨[], [], []⟩ : DispatchState) with
             usedPoolIndices := ([] : List ℕ) ++ [qi.2] },
         ⟨ambZero, 10⟩) :=
  (generateQuestion_fallback_amended 9 c8wOptions resetUsedQuestions
    ⟨[], [], []⟩ ⟨ambZero, 0⟩ ⟨mulberryStream 1, 31⟩ ⟨ambZero, 10⟩
    (by with_unfolding_all rfl) (by with_unfolding_all rfl) (by decide)
    (mulberryNext_snd_bounds (mulberryState 1 31)).1
    (mulberryNext_snd_bounds (mulberryState 1 31)).2).1
    (by
      intro hcon
      have hlen : (matchingPool ⟨[], [], []⟩
          (resolveTopics c8wOptions)).length = 1 := by
        with_unfolding_all rfl
      rw [hcon] at hlen
      exact absurd hlen (by decide))
